import Mathlib

/-!
# Verification of the mpdcast-dab radio channel & subscription controller

Shallow embedding of `mpdcast_dab/welle_python/radio_controller.py` and
`mpdcast_dab/welle_python/welle_io.py`.

The controller is single-threaded (all its logic runs on one asyncio event
loop, and `subscribe_program` is serialized by `self._subscription_lock`),
so each externally visible operation is embedded as a pure state-transition
function on `RCState`.  Device behaviour (tune success, program-subscribe
success, which services the device announces during the discovery wait, and
caller-initiated cancellation during the wait) is supplied by an explicit
environment `DeviceEnv`.  The delayed channel-reset tasks created by
`asyncio.get_running_loop().create_task(self._reset_channel_later())` are
embedded with explicit identity: a growing list of task statuses
(pending / cancelled / fired) plus the controller's `_channel_reset_task`
field holding the index of the task it currently references; a pending
task's sleep elapsing is an explicit trace operation `Op.fire`.
-/

/-- Truthiness of a Python value that is either `None` or a `str`
(`None` and `''` are falsy, every other string is truthy). -/
def pyTruthy : Option String → Bool
  | none => false
  | some s => if s = "" then false else true

/-- Truthiness of a Python value that is either `None` or an `int` service id
(`None` and `0` are falsy).  `_wait_for_channel` and
`_subscribe_for_service_in_current_channel` test the looked-up service id
with `if service_id:` / `if not service_id:`. -/
def sidTruthy : Option Nat → Bool
  | none => false
  | some sid => if sid = 0 then false else true

/-- Modelled from the spec: `WavProgrammeHandler`
(`mpdcast_dab/welle_python/wav_programme_handler.py` is not part of the
sources given).  The spec describes it as holding a mutable non-negative
subscriber count; the scenario "if found at poll N, a handler is created,
subscriber count becomes 1" fixes the initial count to 0, since the
controller increments it exactly once after creating the handler. -/
structure WavProgrammeHandler where
  subscribers : Int
deriving DecidableEq, Repr

/-- A fresh `WavProgrammeHandler()` as created by
`_subscribe_for_service_in_current_channel`. -/
def newHandler : WavProgrammeHandler := { subscribers := 0 }

/-- `RadioController.Program`: one entry of the `self._programs` dict
(name resolved lazily, handler present only while subscribed). -/
structure Program where
  name : Option String
  handler : Option WavProgrammeHandler
deriving DecidableEq, Repr

/-- Status of one delayed channel-reset asyncio task. -/
inductive TaskStatus where
  | pending
  | cancelled
  | fired
deriving DecidableEq, Repr

/-- Exceptions that can be raised into `_subscribe_for_service_in_current_channel`
while it awaits `_wait_for_channel`. -/
inductive InterruptKind where
  | cancelledError
  | connectionResetError
deriving DecidableEq, Repr

/-- Controller + device state.  `self._programs` is a Python dict (insertion
ordered, unique keys), embedded as an association list.  `channelName` is
`self._channel.name`, which is `''` on construction and `None` after a
channel reset.  `devTuned`/`devLockHeld` are the DAB device's tuned channel
and its mutual-exclusion lock. -/
structure RCState where
  programs : List (Nat × Program)
  channelName : Option String
  ensembleLabel : Option String
  channelDatetime : Option Int
  resetTasks : List TaskStatus
  resetField : Option Nat
  devTuned : Option String
  devLockHeld : Bool
deriving DecidableEq, Repr

/-- State of a freshly constructed `RadioController` (with the device
untouched and its lock free). -/
def initState : RCState :=
  { programs := [], channelName := some "", ensembleLabel := none,
    channelDatetime := none, resetTasks := [], resetField := none,
    devTuned := none, devLockHeld := false }

/-- `RadioController.PROGRAM_DISCOVERY_TIMEOUT` (seconds). -/
def PROGRAM_DISCOVERY_TIMEOUT : Nat := 10

/-- `RadioController.CHANNEL_RESET_DELAY` (seconds); the delay itself is not
modelled quantitatively, a pending task's sleep elapsing is the trace
operation `Op.fire`. -/
def CHANNEL_RESET_DELAY : Nat := 5

/-- Per-`subscribe_program`-call device/environment behaviour:
whether `set_channel` succeeds, whether the device-level
`subscribe_program` succeeds, which service ids the device announces
during each 0.5 s poll sleep of the discovery wait, and whether (and at
which poll sleep) a `CancelledError`/`ConnectionResetError` is raised
into the waiting coroutine. -/
structure DeviceEnv where
  setChannelOk : Bool
  subscribeOk : Bool
  arrivals : List (List Nat)
  interrupt : Option (Nat × InterruptKind)
deriving DecidableEq, Repr

/-- Membership test `service_id in self._programs`. -/
def containsKey (sid : Nat) (ps : List (Nat × Program)) : Bool :=
  ps.any (fun e => e.1 == sid)

/-- Dict read `self._programs[service_id]` (as an option). -/
def lookupProgram (sid : Nat) (ps : List (Nat × Program)) : Option Program :=
  (ps.find? (fun e => e.1 == sid)).map Prod.snd

/-- Write `self._programs[service_id].handler = h` (no-op on a missing key). -/
def setHandler (sid : Nat) (h : Option WavProgrammeHandler) (s : RCState) : RCState :=
  { s with programs :=
      s.programs.map (fun e => if e.1 = sid then (e.1, { e.2 with handler := h }) else e) }

/-- `on_service_detected`: add an empty `Program()` entry for an unknown
service id, leave the table unchanged otherwise. -/
def on_service_detected (sid : Nat) (s : RCState) : RCState :=
  if containsKey sid s.programs then s
  else { s with programs := s.programs ++ [(sid, { name := none, handler := none })] }

/-- `on_set_ensemble_label`. -/
def on_set_ensemble_label (l : String) (s : RCState) : RCState :=
  { s with ensembleLabel := some l }

/-- `on_datetime_update` (the timestamp kept as an integer). -/
def on_datetime_update (ts : Int) (s : RCState) : RCState :=
  { s with channelDatetime := some ts }

/-- The stream of `on_service_detected` events delivered during one poll
sleep, applied to the program table
(each arrives through `on_service_detected` on the controller's loop). -/
def addServiceList (batch : List Nat) (ps : List (Nat × Program)) : List (Nat × Program) :=
  batch.foldl (fun acc sid =>
    if containsKey sid acc then acc
    else acc ++ [(sid, { name := none, handler := none })]) ps

/-- `_fill_service_id`: walk the program table in insertion order, resolving
and caching every empty name via `get_service_name` (embedded as the pure
table `f`, already right-stripped), and return the first service id whose
name equals `lookup_name`, together with the mutated table.  The walk stops
at the first match, so entries after it keep their unresolved names. -/
def fill_service_id (f : Nat → String) (lookupName : String) :
    List (Nat × Program) → Option Nat × List (Nat × Program)
  | [] => (none, [])
  | (sid, p) :: rest =>
    let p1 : Program := if pyTruthy p.name then p else { p with name := some (f sid) }
    if p1.name = some lookupName then (some sid, (sid, p1) :: rest)
    else
      let r := fill_service_id f lookupName rest
      (r.1, (sid, p1) :: r.2)

/-- The poll loop of `_wait_for_channel`: up to `fuel` iterations of
`await asyncio.sleep(0.5)` (during which the pending detection events of the
next `arrivals` batch are delivered, unless the sleep raises the interrupt,
whose poll-sleep index counts down with each completed sleep) followed by
`_fill_service_id` and the `if service_id:` truthiness test. -/
def wait_loop (f : Nat → String) (lookupName : String) :
    Nat → List (List Nat) → Option (Nat × InterruptKind) → List (Nat × Program) →
    Except InterruptKind (Option Nat) × List (Nat × Program)
  | 0, _, _, ps => (Except.ok none, ps)
  | _ + 1, _, some (0, k), ps => (Except.error k, ps)
  | fuel + 1, arr, none, ps =>
    if sidTruthy (fill_service_id f lookupName (addServiceList (arr.headD []) ps)).1 then
      (Except.ok (fill_service_id f lookupName (addServiceList (arr.headD []) ps)).1,
       (fill_service_id f lookupName (addServiceList (arr.headD []) ps)).2)
    else
      wait_loop f lookupName fuel arr.tail none
        (fill_service_id f lookupName (addServiceList (arr.headD []) ps)).2
  | fuel + 1, arr, some (m + 1, k), ps =>
    if sidTruthy (fill_service_id f lookupName (addServiceList (arr.headD []) ps)).1 then
      (Except.ok (fill_service_id f lookupName (addServiceList (arr.headD []) ps)).1,
       (fill_service_id f lookupName (addServiceList (arr.headD []) ps)).2)
    else
      wait_loop f lookupName fuel arr.tail (some (m, k))
        (fill_service_id f lookupName (addServiceList (arr.headD []) ps)).2

/-- `_wait_for_channel`: an initial synchronous check, then the poll loop of
`2 * PROGRAM_DISCOVERY_TIMEOUT` iterations; `None` on timeout. -/
def wait_for_channel (f : Nat → String) (lookupName : String)
    (ps : List (Nat × Program)) (arr : List (List Nat))
    (intr : Option (Nat × InterruptKind)) :
    Except InterruptKind (Option Nat) × List (Nat × Program) :=
  if sidTruthy (fill_service_id f lookupName ps).1 then
    (Except.ok (fill_service_id f lookupName ps).1, (fill_service_id f lookupName ps).2)
  else
    wait_loop f lookupName (2 * PROGRAM_DISCOVERY_TIMEOUT) arr intr
      (fill_service_id f lookupName ps).2

/-- `programs` has a program with a live handler
(negation of the guard loop of `_cleanup_channel`). -/
def NoHandlers (s : RCState) : Bool :=
  s.programs.all (fun e => e.2.handler.isNone)

/-- `_cleanup_channel`: when no programme subscription is left, create the
delayed-reset task (a fresh pending task) and store it in
`_channel_reset_task`; otherwise do nothing. -/
def cleanup_channel (s : RCState) : RCState :=
  if NoHandlers s then
    { s with resetTasks := s.resetTasks ++ [TaskStatus.pending],
             resetField := some s.resetTasks.length }
  else s

/-- Overwrite the status of task `i`. -/
def setTaskStatus : Nat → TaskStatus → List TaskStatus → List TaskStatus
  | _, _, [] => []
  | 0, st, _ :: r => st :: r
  | n + 1, st, t :: r => t :: setTaskStatus n st r

/-- `task.cancel()`: a pending task (suspended in its sleep) becomes
cancelled; cancelling an already finished task changes nothing. -/
def cancelTask (i : Nat) (ts : List TaskStatus) : List TaskStatus :=
  if ts.get? i = some TaskStatus.pending then setTaskStatus i TaskStatus.cancelled ts else ts

/-- `_reset_channel`: detune the device, clear the channel name and the
program table, release the device lock.  (The function's `assert` that no
handler is live is not embedded; the invariant theorems establish it at
every call site reachable in a trace.) -/
def reset_channel (s : RCState) : RCState :=
  { s with devTuned := none, channelName := none, programs := [], devLockHeld := false }

/-- The body of `_reset_channel_later` running to completion after its sleep
(task `i` was not cancelled in time): perform the reset and clear
`_channel_reset_task`.  A task that is no longer pending never runs. -/
def fire_reset (i : Nat) (s : RCState) : RCState :=
  if s.resetTasks.get? i = some TaskStatus.pending then
    { reset_channel s with resetTasks := setTaskStatus i TaskStatus.fired s.resetTasks,
                           resetField := none }
  else s

/-- First phase of `_tune_channel`: if a delayed channel reset is pending,
reset the channel immediately when the active channel cannot be reused
(`if self._channel.name != channel`), and in either case cancel the delayed
reset task and clear `_channel_reset_task`. -/
def tune_channel_pre (ch : String) (s : RCState) : RCState :=
  match s.resetField with
  | some i =>
    if s.channelName ≠ some ch then
      { reset_channel s with resetTasks := cancelTask i s.resetTasks, resetField := none }
    else
      { s with resetTasks := cancelTask i s.resetTasks, resetField := none }
  | none => s

/-- Second phase of `_tune_channel`: reuse a matching active channel, refuse
a different active channel, and otherwise acquire the device lock
non-blockingly (fails when held) and tune; on `set_channel` failure release
the lock again (the net effect of `lock.acquire` followed by
`lock.release`). -/
def tune_channel_post (env : DeviceEnv) (ch : String) (s1 : RCState) : Bool × RCState :=
  if pyTruthy s1.channelName then
    if s1.channelName ≠ some ch then (false, s1) else (true, s1)
  else if s1.devLockHeld then (false, s1)
  else if env.setChannelOk then
    (true, { s1 with devLockHeld := true, devTuned := some ch, channelName := some ch })
  else
    (false, { s1 with devLockHeld := false })

/-- `_tune_channel`. -/
def tune_channel (env : DeviceEnv) (ch : String) (s : RCState) : Bool × RCState :=
  tune_channel_post env ch (tune_channel_pre ch s)

/-- `_subscribe_for_service_in_current_channel`.  The result is the raised
exception, or the service id whose handler is returned (`none` for a
declined subscription). -/
def subscribe_for_service (f : Nat → String) (env : DeviceEnv) (programName : String)
    (s : RCState) : Except InterruptKind (Option Nat) × RCState :=
  match wait_for_channel f programName s.programs env.arrivals env.interrupt with
  | (Except.error k, ps) => (Except.error k, cleanup_channel { s with programs := ps })
  | (Except.ok none, ps) => (Except.ok none, cleanup_channel { s with programs := ps })
  | (Except.ok (some sid), ps) =>
    let s1 : RCState := { s with programs := ps }
    match lookupProgram sid ps with
    | none => (Except.ok none, s1)
    | some p =>
      match p.handler with
      | none =>
        let s2 := setHandler sid (some newHandler) s1
        if env.subscribeOk then
          (Except.ok (some sid),
           setHandler sid (some { subscribers := newHandler.subscribers + 1 }) s2)
        else
          (Except.ok none, cleanup_channel s2)
      | some h =>
        (Except.ok (some sid), setHandler sid (some { subscribers := h.subscribers + 1 }) s1)

/-- `subscribe_program` (the body of the `async with self._subscription_lock`
section). -/
def subscribe_program (f : Nat → String) (env : DeviceEnv) (ch programName : String)
    (s : RCState) : Except InterruptKind (Option Nat) × RCState :=
  let t := tune_channel env ch s
  if t.1 then subscribe_for_service f env programName t.2
  else (Except.ok none, t.2)

/-- `_unsubscribe`. -/
def unsubscribe_sid (sid : Nat) (s : RCState) : RCState :=
  match lookupProgram sid s.programs with
  | none => s
  | some p =>
    match p.handler with
    | none => s
    | some h =>
      if h.subscribers - 1 = 0 then
        cleanup_channel (setHandler sid none s)
      else
        setHandler sid (some { subscribers := h.subscribers - 1 }) s

/-- `unsubscribe_program`: resolve the first program entry bearing the looked
up name and unsubscribe it; no-op if no entry carries the name. -/
def unsubscribe_program (lookupName : String) (s : RCState) : RCState :=
  match s.programs.find? (fun e => e.2.name == some lookupName) with
  | some e => unsubscribe_sid e.1 s
  | none => s

/-- `stop`. -/
def rcStop (s : RCState) : RCState :=
  let s1 := (s.programs.map Prod.fst).foldl (fun st sid => unsubscribe_sid sid st) s
  match s1.resetField with
  | some i =>
    { reset_channel s1 with resetTasks := cancelTask i s1.resetTasks, resetField := none }
  | none => s1

/-- One externally triggered controller transition: a caller operation, a
pending delayed-reset task firing, or a device event delivered through the
callback forwarder. -/
inductive Op where
  | subscribe (ch programName : String) (env : DeviceEnv)
  | unsubscribe (programName : String)
  | stop
  | fire (i : Nat)
  | serviceDetected (sid : Nat)
  | ensembleLabel (l : String)
deriving DecidableEq, Repr

/-- Trace step.  Device events (`serviceDetected`, `ensembleLabel`) are only
produced by the welle.io engine while the device is tuned to a channel, so
they are gated on `devTuned`. -/
def step (f : Nat → String) (s : RCState) : Op → RCState
  | Op.subscribe ch nm env => (subscribe_program f env ch nm s).2
  | Op.unsubscribe nm => unsubscribe_program nm s
  | Op.stop => rcStop s
  | Op.fire i => fire_reset i s
  | Op.serviceDetected sid => if s.devTuned.isSome then on_service_detected sid s else s
  | Op.ensembleLabel l => if s.devTuned.isSome then on_set_ensemble_label l s else s

/-- Run a trace from an arbitrary state. -/
def runFrom (f : Nat → String) (s : RCState) (ops : List Op) : RCState :=
  ops.foldl (step f) s

/-- Run a trace from the freshly constructed controller. -/
def runTrace (f : Nat → String) (ops : List Op) : RCState :=
  runFrom f initState ops

/-- A subscribe operation carries a real channel designator: the channel
names a caller can pass come from `DabDevice.all_channel_names()` and are
nonempty (the empty string is the Python-falsy placeholder the controller
itself uses for "no channel"). -/
def opValid : Op → Bool
  | Op.subscribe ch _ _ => !(ch == "")
  | _ => true

/-- All operations of a trace carry real channel designators. -/
def ValidOps (ops : List Op) : Bool := ops.all opValid

/-! ## CallbackForwarder (`welle_io.py`) -/

/-- A Python `AttributeError`, as raised by `getattr(None, attr)`. -/
inductive PyError where
  | attributeError
deriving DecidableEq, Repr

/-- `CallbackForwarder`: the mutable current-target cell behind the stable
forwarding identity registered once with the C library. -/
structure CallbackForwarder (α : Type) where
  forwardObject : Option α
deriving DecidableEq, Repr

/-- `CallbackForwarder.subscribe_for_callbacks`. -/
def subscribe_for_callbacks {α : Type} (fwd : CallbackForwarder α) (target : α) :
    Bool × CallbackForwarder α :=
  if fwd.forwardObject.isSome then (false, fwd)
  else (true, { forwardObject := some target })

/-- `CallbackForwarder.unsubscribe_from_callbacks`. -/
def unsubscribe_from_callbacks {α : Type} (fwd : CallbackForwarder α) :
    Bool × CallbackForwarder α :=
  match fwd.forwardObject with
  | none => (false, fwd)
  | some _ => (true, { forwardObject := none })

/-- The call `asyncio.run_coroutine_threadsafe(method(*args), self._loop)`
that `CallbackForwarder.__getattr__` submits to the controller's event
loop. -/
structure ScheduledCall (α : Type) where
  target : α
  attr : String
  args : List Int
deriving DecidableEq, Repr

/-- One event delivery `forwarder.attr(*args)` arriving from the C library:
`__getattr__` looks the event name up on the current forward object
(`getattr(self._forward_object, attr)`, which raises `AttributeError` when
the forward object is `None`, since `None` has none of the
`RadioControllerInterface` event methods) and otherwise schedules the bound
method with the same arguments onto the controller's loop. -/
def forwardCall {α : Type} (fwd : CallbackForwarder α) (attr : String) (args : List Int) :
    Except PyError (ScheduledCall α) :=
  match fwd.forwardObject with
  | none => Except.error PyError.attributeError
  | some t => Except.ok { target := t, attr := attr, args := args }

/-! ## Concrete instances and specification-side definitions -/

/-- A device whose `get_service_name` (right-stripped) answers `"News"` for
every service id. -/
def svcNews : Nat → String := fun _ => "News"
/-- The environment of a fully successful subscription: tuning succeeds, the
device-level program subscription succeeds, and the device announces service
id 1 during the first poll sleep. -/
def envOkC : DeviceEnv :=
  { setChannelOk := true, subscribeOk := true, arrivals := [[1]], interrupt := none }
/-- Same as `envOkC` except that the device-level program subscription
fails. -/
def envSubFailC : DeviceEnv :=
  { setChannelOk := true, subscribeOk := false, arrivals := [[1]], interrupt := none }
/-- A controller state with channel `"7A"` tuned and no subscription yet
(as reached mid-way through a first `subscribe_program`). -/
def tunedState : RCState :=
  { initState with channelName := some "7A", devTuned := some "7A", devLockHeld := true }
/-- The environment of a subscription cancelled at the very first poll sleep
of the discovery wait. -/
def envCancelC : DeviceEnv :=
  { setChannelOk := true, subscribeOk := true, arrivals := [],
    interrupt := some (0, InterruptKind.cancelledError) }
/-- The name under which `_fill_service_id` sees a table entry: the cached
name when non-empty, otherwise the device answer `get_service_name` for the
entry's service id. -/
def resolvedName (f : Nat → String) (e : Nat × Program) : Option String :=
  if pyTruthy e.2.name then e.2.name else some (f e.1)
/-- The program table as `_fill_service_id` sees it: each entry paired with
its resolved name. -/
def resolveList (f : Nat → String) (ps : List (Nat × Program)) : List (Nat × Option String) :=
  ps.map (fun e => (e.1, resolvedName f e))
/-- The first service id in table order whose resolved name equals the
looked-up name. -/
def specFind (f : Nat → String) (lookupName : String) (ps : List (Nat × Program)) : Option Nat :=
  ((resolveList f ps).find? (fun e => e.2 == some lookupName)).map Prod.fst
/-- Modelled from the spec (amended): the declarative description of the
program-discovery wait.  Check immediately, then poll once per sleep for at
most `2 * PROGRAM_DISCOVERY_TIMEOUT` iterations, after each sleep apply the
newly announced services; each check selects the first discovered service
whose resolved name equals the requested name, and the wait ends at the
first check whose selection carries a *nonzero* id (an id-0 selection is
conflated with "not found" by the code's `if service_id:` truthiness test);
`none` when the timeout elapses with no such check. -/
def discoveryWaitLoopSpec (f : Nat → String) (lookupName : String) :
    Nat → List (List Nat) → List (Nat × Program) → Option Nat
  | 0, _, _ => none
  | fuel + 1, arr, ps =>
    if sidTruthy (specFind f lookupName (addServiceList (arr.headD []) ps)) then
      specFind f lookupName (addServiceList (arr.headD []) ps)
    else
      discoveryWaitLoopSpec f lookupName fuel arr.tail (addServiceList (arr.headD []) ps)
/-- Modelled from the spec (amended): top level of the declarative discovery
wait — the immediate check followed by the bounded poll loop. -/
def discoveryWaitSpec (f : Nat → String) (lookupName : String)
    (ps : List (Nat × Program)) (arr : List (List Nat)) : Option Nat :=
  if sidTruthy (specFind f lookupName ps) then specFind f lookupName ps
  else discoveryWaitLoopSpec f lookupName (2 * PROGRAM_DISCOVERY_TIMEOUT) arr ps
/-- The environment of a subscription attempt during which the device
announces nothing (and nothing interrupts the wait). -/
def envQuietC : DeviceEnv :=
  { setChannelOk := true, subscribeOk := true, arrivals := [], interrupt := none }
/-- A program table whose only (already discovered) entry is the service with
id 0, named `"News"`. -/
def zeroTable : List (Nat × Program) := [(0, { name := some "News", handler := none })]
/-- The tuned controller state whose program table is `zeroTable`. -/
def tunedZeroState : RCState := { tunedState with programs := zeroTable }

/-- The controller's operational invariant, proven to hold in every state
reachable by a trace of valid operations:
the device lock is held exactly while the device is tuned;
`self._channel.name` is truthy exactly while the device is tuned;
the reset task referenced by `_channel_reset_task` is pending, and exists
only while the channel is tuned with no live programme handler;
every pending reset task is the referenced one (so at most one pending
reset task ever exists);
the program table is empty while the device is not tuned;
while the device is tuned with no live handler a reset task is referenced;
and the program-table keys are distinct. -/
def RCInv (s : RCState) : Prop :=
  s.devLockHeld = s.devTuned.isSome
  ∧ pyTruthy s.channelName = s.devTuned.isSome
  ∧ (∀ i ∈ s.resetField.toList,
      s.resetTasks.get? i = some TaskStatus.pending
      ∧ s.devTuned.isSome = true ∧ NoHandlers s = true)
  ∧ (∀ j ∈ List.range s.resetTasks.length,
      s.resetTasks.get? j = some TaskStatus.pending → s.resetField = some j)
  ∧ (s.devTuned = none → s.programs = [])
  ∧ (s.devTuned.isSome = true → NoHandlers s = true → s.resetField.isSome = true)
  ∧ (s.programs.map Prod.fst).Nodup

instance (s : RCState) : Decidable (RCInv s) := by
  unfold RCInv
  infer_instance

/-! ## C1 -/

/-- C1: the claimed invariant — the subscriber count never goes negative and
a handler exists iff its count is positive — is broken by the code when the
device-level `subscribe_program` fails: `_subscribe_for_service_in_current_channel`
stores the freshly created handler in the program table *before* asking the
device, and on failure returns without removing it, so a handler with
subscriber count 0 survives (and `_cleanup_channel`, seeing it, does not
schedule the reset).  A subsequent `unsubscribe_program` then decrements the
count to −1.  This theorem evaluates the code at that failing input. -/
theorem c1_stale_handler_negative_count :
    (runTrace svcNews [Op.subscribe "7A" "News" envSubFailC]).programs =
      [(1, { name := some "News", handler := some { subscribers := 0 } })]
    ∧ (runTrace svcNews
        [Op.subscribe "7A" "News" envSubFailC, Op.unsubscribe "News"]).programs =
      [(1, { name := some "News", handler := some { subscribers := -1 } })] := by
  decide

/-! ## C2 -/

/-- C2: a `subscribe_program` call made while a channel is active, no delayed
reset is pending, and the active channel differs from the requested one is
declined (`None`, i.e. no handler) and leaves the whole controller state —
active channel, program table, device lock, reset bookkeeping — unchanged. -/
theorem c2_busy_channel_declined (f : Nat → String) (env : DeviceEnv)
    (ch programName : String) (s : RCState)
    (hActive : pyTruthy s.channelName = true)
    (hDiff : s.channelName ≠ some ch)
    (hNoReset : s.resetField = none) :
    subscribe_program f env ch programName s = (Except.ok none, s) := by
  simp [subscribe_program, tune_channel, tune_channel_pre, tune_channel_post,
    hNoReset, hActive, hDiff]


/-- Witness for C2 at a concrete tuned state. -/
theorem c2_busy_channel_declined_witness :
    pyTruthy tunedState.channelName = true
    ∧ subscribe_program svcNews envOkC "8B" "Jazz" tunedState = (Except.ok none, tunedState) :=
  ⟨by decide,
   c2_busy_channel_declined svcNews envOkC "8B" "Jazz" tunedState
     (by decide) (by decide) rfl⟩

/-! ## C3 -/

/-- C3 (counterexample): the claim says an event delivered while no target is
bound "completes without raising"; in fact `__getattr__` executes
`getattr(self._forward_object, attr)` with `self._forward_object = None`,
which raises `AttributeError` to the caller before anything could be
scheduled. -/
theorem c3_unbound_event_raises :
    forwardCall ({ forwardObject := none } : CallbackForwarder Nat) "on_snr" [1] =
      Except.error PyError.attributeError := rfl

/-- C3 (amended): an event delivered while no target is bound schedules
nothing — the attribute lookup raises `AttributeError` to the (native)
caller instead of completing silently; an event delivered while a target is
bound schedules an equivalent call, with the same event name and arguments,
against the currently bound target. -/
theorem c3_forward_call_semantics {α : Type} (fwd : CallbackForwarder α)
    (attr : String) (args : List Int) :
    (fwd.forwardObject = none →
      forwardCall fwd attr args = Except.error PyError.attributeError)
    ∧ (∀ t, fwd.forwardObject = some t →
      forwardCall fwd attr args = Except.ok { target := t, attr := attr, args := args }) := by
  constructor
  · intro h
    simp [forwardCall, h]
  · intro t h
    simp [forwardCall, h]

/-- Witness for C3 on both sides of the binding state. -/
theorem c3_forward_call_semantics_witness :
    forwardCall ({ forwardObject := none } : CallbackForwarder Nat) "on_sync_change" [0] =
      Except.error PyError.attributeError
    ∧ forwardCall ({ forwardObject := some 7 } : CallbackForwarder Nat) "on_sync_change" [0] =
      Except.ok { target := 7, attr := "on_sync_change", args := [0] } :=
  ⟨(c3_forward_call_semantics { forwardObject := none } "on_sync_change" [0]).1 rfl,
   (c3_forward_call_semantics { forwardObject := some 7 } "on_sync_change" [0]).2 7 rfl⟩

/-! ## C9 -/

/-- C9: `subscribe_for_callbacks` declines and leaves the bound target
unchanged exactly when a target is already bound, and otherwise records the
target and succeeds; `unsubscribe_from_callbacks` declines exactly when no
target is bound, and otherwise clears it and succeeds (in both of its cases
the resulting cell is empty). -/
theorem c9_bind_unbind {α : Type} (fwd : CallbackForwarder α) (target : α) :
    ((subscribe_for_callbacks fwd target).1 = false ↔ fwd.forwardObject.isSome = true)
    ∧ (subscribe_for_callbacks fwd target).2 =
        (if fwd.forwardObject.isSome then fwd else { forwardObject := some target })
    ∧ ((unsubscribe_from_callbacks fwd).1 = false ↔ fwd.forwardObject = none)
    ∧ (unsubscribe_from_callbacks fwd).2 = { forwardObject := none } := by
  rcases fwd with ⟨obj⟩
  rcases obj with _ | t <;>
    simp [subscribe_for_callbacks, unsubscribe_from_callbacks]

/-! ## C10 -/

/-- C10: `on_service_detected` is idempotent; for a service id already in the
program table it leaves the table (hence that entry's resolved name and
handler) unchanged, and for an unknown service id it appends a fresh entry
with no name and no handler. -/
theorem c10_service_detected_idempotent (sid : Nat) (s : RCState) :
    on_service_detected sid (on_service_detected sid s) = on_service_detected sid s
    ∧ (containsKey sid s.programs = true → on_service_detected sid s = s)
    ∧ (containsKey sid s.programs = false →
        (on_service_detected sid s).programs =
          s.programs ++ [(sid, { name := none, handler := none })]) := by
  refine ⟨?_, ?_, ?_⟩
  · by_cases h : containsKey sid s.programs
    · simp [on_service_detected, h]
    · have h2 : containsKey sid
          (s.programs ++ [(sid, ({ name := none, handler := none } : Program))]) = true := by
        simp [containsKey, List.any_append]
      simp [on_service_detected, h, h2]
  · intro h
    simp [on_service_detected, h]
  · intro h
    simp [on_service_detected, h]

/-- Witness for C10 on a known and an unknown service id. -/
theorem c10_service_detected_idempotent_witness :
    containsKey 4 initState.programs = false
    ∧ (on_service_detected 4 initState).programs =
        initState.programs ++ [(4, { name := none, handler := none })]
    ∧ containsKey 4 (on_service_detected 4 initState).programs = true
    ∧ on_service_detected 4 (on_service_detected 4 initState) =
        on_service_detected 4 initState :=
  ⟨by decide,
   (c10_service_detected_idempotent 4 initState).2.2 (by decide),
   by decide,
   (c10_service_detected_idempotent 4 (on_service_detected 4 initState)).2.1 (by decide)⟩

/-! ## C8 -/

/-- C8: when the discovery wait raises (cancellation or connection loss), the
subscription routine performs `_cleanup_channel` and re-raises the same
exception instead of converting it into a declined result.  When no other
subscription exists, the cleanup schedules the delayed reset whose firing
detunes the device, releases its lock and clears the channel state; when
another subscription exists, the cleanup leaves the state untouched (the
device stays tuned). -/
theorem c8_interrupt_cleanup_reraise (f : Nat → String) (env : DeviceEnv)
    (programName : String) (s : RCState) (k : InterruptKind)
    (ps : List (Nat × Program))
    (hw : wait_for_channel f programName s.programs env.arrivals env.interrupt =
      (Except.error k, ps)) :
    subscribe_for_service f env programName s =
      (Except.error k, cleanup_channel { s with programs := ps })
    ∧ (NoHandlers { s with programs := ps } = true →
        (cleanup_channel { s with programs := ps }).resetField = some s.resetTasks.length
        ∧ (fire_reset s.resetTasks.length
            (cleanup_channel { s with programs := ps })).devTuned = none
        ∧ (fire_reset s.resetTasks.length
            (cleanup_channel { s with programs := ps })).devLockHeld = false
        ∧ (fire_reset s.resetTasks.length
            (cleanup_channel { s with programs := ps })).channelName = none
        ∧ (fire_reset s.resetTasks.length
            (cleanup_channel { s with programs := ps })).programs = [])
    ∧ (NoHandlers { s with programs := ps } = false →
        cleanup_channel { s with programs := ps } = { s with programs := ps }) := by
  refine ⟨?_, ?_, ?_⟩
  · simp [subscribe_for_service, hw]
  · intro h
    have hget : ((s.resetTasks ++ [TaskStatus.pending]).get? s.resetTasks.length) =
        some TaskStatus.pending := by
      simp
    simp [cleanup_channel, h, fire_reset, reset_channel, hget]
  · intro h
    simp [cleanup_channel, h]


/-- Witness for C8: a subscription to the tuned-but-empty channel is
cancelled during its first poll sleep. -/
theorem c8_interrupt_cleanup_reraise_witness :
    subscribe_for_service svcNews envCancelC "News" tunedState =
      (Except.error InterruptKind.cancelledError,
        cleanup_channel { tunedState with programs := [] })
    ∧ (NoHandlers { tunedState with programs := [] } = true →
        (cleanup_channel { tunedState with programs := [] }).resetField =
          some tunedState.resetTasks.length
        ∧ (fire_reset tunedState.resetTasks.length
            (cleanup_channel { tunedState with programs := [] })).devTuned = none
        ∧ (fire_reset tunedState.resetTasks.length
            (cleanup_channel { tunedState with programs := [] })).devLockHeld = false
        ∧ (fire_reset tunedState.resetTasks.length
            (cleanup_channel { tunedState with programs := [] })).channelName = none
        ∧ (fire_reset tunedState.resetTasks.length
            (cleanup_channel { tunedState with programs := [] })).programs = [])
    ∧ (NoHandlers { tunedState with programs := [] } = false →
        cleanup_channel { tunedState with programs := [] } =
          { tunedState with programs := [] }) :=
  c8_interrupt_cleanup_reraise svcNews envCancelC "News" tunedState
    InterruptKind.cancelledError [] rfl

/-! ## C7: characterization of the discovery wait -/






/-- The lazily resolved head entry of `_fill_service_id` carries exactly the
resolved name. -/
lemma name_after_resolve (f : Nat → String) (sid : Nat) (p : Program) :
    (if pyTruthy p.name then p else { p with name := some (f sid) }).name
      = resolvedName f (sid, p) := by
  by_cases h : pyTruthy p.name = true <;> simp [resolvedName, h]

/-- Caching the resolved name does not change the resolved name. -/
lemma resolvedName_after_resolve (f : Nat → String) (sid : Nat) (p : Program) :
    resolvedName f (sid, if pyTruthy p.name then p else { p with name := some (f sid) })
      = resolvedName f (sid, p) := by
  by_cases h : pyTruthy p.name = true
  · simp [h]
  · by_cases h2 : pyTruthy (some (f sid)) = true <;>
      simp [resolvedName, h, h2]

/-- `_fill_service_id` returns the first service id whose resolved name
matches. -/
lemma fill_service_id_fst (f : Nat → String) (lookupName : String) :
    ∀ ps, (fill_service_id f lookupName ps).1 = specFind f lookupName ps := by
  intro ps
  induction ps with
  | nil => simp [fill_service_id, specFind, resolveList]
  | cons e rest ih =>
    obtain ⟨sid, p⟩ := e
    by_cases hm :
        (if pyTruthy p.name then p else { p with name := some (f sid) }).name
          = some lookupName
    · have h2 : resolvedName f (sid, p) = some lookupName := by
        rw [← name_after_resolve]; exact hm
      simp [fill_service_id, hm, specFind, resolveList, List.find?_cons, h2]
    · have h2 : ¬resolvedName f (sid, p) = some lookupName := by
        rw [← name_after_resolve]; exact hm
      simp only [fill_service_id, hm, if_false]
      simp only [specFind, resolveList, List.map_cons, List.find?_cons] at *
      have hb : ((sid, resolvedName f (sid, p)).2 == some lookupName) = false := by
        simp [h2]
      rw [hb]
      exact ih

/-- The name caching performed by `_fill_service_id` does not change how the
table resolves. -/
lemma fill_service_id_resolveList (f : Nat → String) (lookupName : String) :
    ∀ ps, resolveList f (fill_service_id f lookupName ps).2 = resolveList f ps := by
  intro ps
  induction ps with
  | nil => simp [fill_service_id, resolveList]
  | cons e rest ih =>
    obtain ⟨sid, p⟩ := e
    by_cases hm :
        (if pyTruthy p.name then p else { p with name := some (f sid) }).name
          = some lookupName
    · simp only [fill_service_id, hm, if_true]
      simp [resolveList, resolvedName_after_resolve]
    · simp only [fill_service_id, hm, if_false]
      simp only [resolveList, List.map_cons, resolvedName_after_resolve]
      refine congrArg (List.cons _) ?_
      simpa [resolveList] using ih

/-- Tables that resolve equally have equal key sequences. -/
lemma keys_of_resolveList (f : Nat → String) (ps qs : List (Nat × Program))
    (h : resolveList f ps = resolveList f qs) :
    ps.map Prod.fst = qs.map Prod.fst := by
  have h1 : (resolveList f ps).map Prod.fst = (resolveList f qs).map Prod.fst := by rw [h]
  simpa [resolveList, Function.comp] using h1

/-- `containsKey` only looks at the keys. -/
lemma containsKey_eq_of_keys (sid : Nat) (ps qs : List (Nat × Program))
    (h : ps.map Prod.fst = qs.map Prod.fst) :
    containsKey sid ps = containsKey sid qs := by
  have hany : ∀ l : List (Nat × Program),
      l.any (fun e => e.1 == sid) = (l.map Prod.fst).any (fun k => k == sid) := by
    intro l
    induction l with
    | nil => rfl
    | cons a t iht => simp [List.any_cons, iht]
  rw [containsKey, containsKey, hany, hany, h]

/-- Applying one detection batch to equally resolving tables yields equally
resolving tables. -/
lemma addServiceList_resolve_congr (f : Nat → String) (batch : List Nat) :
    ∀ ps qs, resolveList f ps = resolveList f qs →
      resolveList f (addServiceList batch ps) = resolveList f (addServiceList batch qs) := by
  induction batch with
  | nil => intro ps qs h; simpa [addServiceList] using h
  | cons sid rest ih =>
    intro ps qs h
    have hkeys := keys_of_resolveList f ps qs h
    have hc := containsKey_eq_of_keys sid ps qs hkeys
    have hmap : List.map (fun e => (e.1, resolvedName f e)) ps
        = List.map (fun e => (e.1, resolvedName f e)) qs := h
    have hstep : resolveList f
        (if containsKey sid ps then ps
         else ps ++ [(sid, { name := none, handler := none })])
        = resolveList f
        (if containsKey sid qs then qs
         else qs ++ [(sid, { name := none, handler := none })]) := by
      by_cases hck : containsKey sid ps = true
      · have hq : containsKey sid qs = true := hc ▸ hck
        simp only [hck, hq, if_true]
        exact h
      · have hq : ¬containsKey sid qs = true := by rw [← hc]; exact hck
        simp only [hck, hq, if_false]
        simp [resolveList, hmap]
    have h1 := ih _ _ hstep
    simpa [addServiceList] using h1

/-- The poll loop of the code refines the declarative poll loop: on equally
resolving tables (and with no interrupt) they select the same service. -/
lemma wait_loop_refines (f : Nat → String) (lookupName : String) :
    ∀ fuel arr ps qs, resolveList f ps = resolveList f qs →
      (wait_loop f lookupName fuel arr none ps).1 =
        Except.ok (discoveryWaitLoopSpec f lookupName fuel arr qs) := by
  intro fuel
  induction fuel with
  | zero => intro arr ps qs _; simp [wait_loop, discoveryWaitLoopSpec]
  | succ n ih =>
    intro arr ps qs h
    have h1 : resolveList f (addServiceList (arr.headD []) ps)
        = resolveList f (addServiceList (arr.headD []) qs) :=
      addServiceList_resolve_congr f _ _ _ h
    have hfind : specFind f lookupName (addServiceList (arr.headD []) ps)
        = specFind f lookupName (addServiceList (arr.headD []) qs) := by
      unfold specFind
      rw [h1]
    have hfst := fill_service_id_fst f lookupName (addServiceList (arr.headD []) ps)
    have hnext : resolveList f
        (fill_service_id f lookupName (addServiceList (arr.headD []) ps)).2
        = resolveList f (addServiceList (arr.headD []) qs) := by
      rw [fill_service_id_resolveList]
      exact h1
    simp only [wait_loop, discoveryWaitLoopSpec]
    rw [hfst, hfind]
    by_cases ht : sidTruthy (specFind f lookupName (addServiceList (arr.headD []) qs)) = true
    · rw [if_pos ht, if_pos ht]
    · rw [if_neg ht, if_neg ht]
      exact ih arr.tail _ _ hnext

/-- The poll loop never looks past its fuel's worth of detection batches. -/
lemma wait_loop_take (f : Nat → String) (lookupName : String) :
    ∀ fuel arr intr ps,
      wait_loop f lookupName fuel (arr.take fuel) intr ps =
        wait_loop f lookupName fuel arr intr ps := by
  intro fuel
  induction fuel with
  | zero => intro arr intr ps; simp [wait_loop]
  | succ n ih =>
    intro arr intr ps
    match intr with
    | some (0, k) => rfl
    | none =>
      cases arr with
      | nil => rfl
      | cons b rest =>
        show wait_loop f lookupName (n + 1) (b :: List.take n rest) none ps = _
        simp only [wait_loop, List.headD, List.tail_cons]
        rw [ih]
    | some (m + 1, k) =>
      cases arr with
      | nil => rfl
      | cons b rest =>
        show wait_loop f lookupName (n + 1) (b :: List.take n rest) (some (m + 1, k)) ps = _
        simp only [wait_loop, List.headD, List.tail_cons]
        rw [ih]

/-- C7 (amended): the program-discovery wait checks immediately and then
polls at most `2 * PROGRAM_DISCOVERY_TIMEOUT = 20` times (detections past
the 20th poll sleep are never examined), and it returns exactly what the
declarative `discoveryWaitSpec` prescribes: the first discovered service
whose resolved name equals the requested name, *provided its service id is
nonzero* — an id-0 match is conflated with "not found" by the truthiness
test.  On timeout, the subscription routine runs `_cleanup_channel`
(scheduling the delayed reset only when no program is subscribed) and
returns a declined result. -/
theorem c7_discovery_wait_amended (f : Nat → String) (lookupName : String)
    (ps : List (Nat × Program)) (arr : List (List Nat)) (env : DeviceEnv) (s : RCState) :
    (wait_for_channel f lookupName ps arr none).1 =
        Except.ok (discoveryWaitSpec f lookupName ps arr)
    ∧ wait_for_channel f lookupName ps (arr.take (2 * PROGRAM_DISCOVERY_TIMEOUT)) none =
        wait_for_channel f lookupName ps arr none
    ∧ (env.interrupt = none → ∀ ps2,
        wait_for_channel f lookupName s.programs env.arrivals none = (Except.ok none, ps2) →
        subscribe_for_service f env lookupName s =
          (Except.ok none, cleanup_channel { s with programs := ps2 })
        ∧ (NoHandlers { s with programs := ps2 } = false →
            cleanup_channel { s with programs := ps2 } = { s with programs := ps2 })
        ∧ (NoHandlers { s with programs := ps2 } = true →
            (cleanup_channel { s with programs := ps2 }).resetField =
              some s.resetTasks.length)) := by
  refine ⟨?_, ?_, ?_⟩
  · have hfst := fill_service_id_fst f lookupName ps
    have hres := fill_service_id_resolveList f lookupName ps
    simp only [wait_for_channel, discoveryWaitSpec]
    rw [hfst]
    by_cases ht : sidTruthy (specFind f lookupName ps) = true
    · rw [if_pos ht, if_pos ht]
    · rw [if_neg ht, if_neg ht]
      exact wait_loop_refines f lookupName (2 * PROGRAM_DISCOVERY_TIMEOUT) arr _ ps hres
  · simp only [wait_for_channel]
    by_cases ht : sidTruthy (fill_service_id f lookupName ps).1 = true
    · rw [if_pos ht, if_pos ht]
    · rw [if_neg ht, if_neg ht]
      exact wait_loop_take f lookupName (2 * PROGRAM_DISCOVERY_TIMEOUT) arr none _
  · intro hintr ps2 hw
    refine ⟨?_, ?_, ?_⟩
    · simp [subscribe_for_service, hintr, hw]
    · intro h
      simp [cleanup_channel, h]
    · intro h
      simp [cleanup_channel, h]


/-- Witness for C7: the discovery wait for `"News"` on the freshly tuned,
still empty channel times out, cleans up and declines. -/
theorem c7_discovery_wait_amended_witness :
    subscribe_for_service svcNews envQuietC "News" tunedState =
      (Except.ok none, cleanup_channel { tunedState with programs := [] })
    ∧ (NoHandlers { tunedState with programs := ([] : List (Nat × Program)) } = false →
        cleanup_channel { tunedState with programs := [] } =
          { tunedState with programs := [] })
    ∧ (NoHandlers { tunedState with programs := ([] : List (Nat × Program)) } = true →
        (cleanup_channel { tunedState with programs := [] }).resetField =
          some tunedState.resetTasks.length) :=
  (c7_discovery_wait_amended svcNews "News" [] [] envQuietC tunedState).2.2 rfl [] rfl



/-- C7 (counterexample): the claim promises that the wait returns "the first
discovered service whose resolved name equals the requested name"; with the
matching service bearing id 0, `_fill_service_id` does return it, but the
`if service_id:` truthiness test discards it, the wait times out and the
subscription is declined. -/
theorem c7_zero_id_counterexample :
    specFind svcNews "News" zeroTable = some 0
    ∧ (wait_for_channel svcNews "News" zeroTable [] none).1 = Except.ok none
    ∧ (subscribe_for_service svcNews envQuietC "News" tunedZeroState).1 = Except.ok none :=
  ⟨by decide, rfl, rfl⟩

/-! ## Supporting lemmas for the trace invariant -/

lemma reset_channel_programs (s : RCState) : (reset_channel s).programs = [] := rfl

lemma reset_channel_channelName (s : RCState) : (reset_channel s).channelName = none := rfl

lemma reset_channel_devTuned (s : RCState) : (reset_channel s).devTuned = none := rfl

lemma reset_channel_devLockHeld (s : RCState) : (reset_channel s).devLockHeld = false := rfl

lemma reset_channel_resetTasks (s : RCState) : (reset_channel s).resetTasks = s.resetTasks := rfl

lemma reset_channel_resetField (s : RCState) : (reset_channel s).resetField = s.resetField := rfl

lemma setHandler_channelName (sid h s) : (setHandler sid h s).channelName = s.channelName := rfl

lemma setHandler_devTuned (sid h s) : (setHandler sid h s).devTuned = s.devTuned := rfl

lemma setHandler_devLockHeld (sid h s) : (setHandler sid h s).devLockHeld = s.devLockHeld := rfl

lemma setHandler_resetTasks (sid h s) : (setHandler sid h s).resetTasks = s.resetTasks := rfl

lemma setHandler_resetField (sid h s) : (setHandler sid h s).resetField = s.resetField := rfl

lemma cleanup_channel_programs (s : RCState) : (cleanup_channel s).programs = s.programs := by
  unfold cleanup_channel
  split <;> rfl

lemma cleanup_channel_channelName (s : RCState) :
    (cleanup_channel s).channelName = s.channelName := by
  unfold cleanup_channel
  split <;> rfl

lemma cleanup_channel_devTuned (s : RCState) : (cleanup_channel s).devTuned = s.devTuned := by
  unfold cleanup_channel
  split <;> rfl

lemma cleanup_channel_devLockHeld (s : RCState) :
    (cleanup_channel s).devLockHeld = s.devLockHeld := by
  unfold cleanup_channel
  split <;> rfl

lemma cleanup_channel_noh {s : RCState} (h : NoHandlers s = true) :
    cleanup_channel s =
      { s with resetTasks := s.resetTasks ++ [TaskStatus.pending],
               resetField := some s.resetTasks.length } := by
  simp [cleanup_channel, h]

lemma cleanup_channel_hand {s : RCState} (h : NoHandlers s = false) :
    cleanup_channel s = s := by
  simp [cleanup_channel, h]

lemma NoHandlers_eq (s : RCState) :
    NoHandlers s = s.programs.all (fun e => e.2.handler.isNone) := rfl

lemma NoHandlers_cleanup (s : RCState) : NoHandlers (cleanup_channel s) = NoHandlers s := by
  rw [NoHandlers_eq, NoHandlers_eq, cleanup_channel_programs]

lemma setTaskStatus_length (st : TaskStatus) :
    ∀ (i : Nat) (ts : List TaskStatus), (setTaskStatus i st ts).length = ts.length := by
  intro i ts
  induction ts generalizing i with
  | nil => cases i <;> rfl
  | cons t r ih =>
    cases i with
    | zero => rfl
    | succ n => simpa [setTaskStatus] using ih n

lemma setTaskStatus_get? (st : TaskStatus) :
    ∀ (ts : List TaskStatus) (i j : Nat),
      (setTaskStatus i st ts).get? j =
        if j = i ∧ i < ts.length then some st else ts.get? j := by
  intro ts
  induction ts with
  | nil =>
    intro i j
    cases i <;> simp [setTaskStatus]
  | cons t r ih =>
    intro i j
    cases i with
    | zero =>
      cases j with
      | zero => simp [setTaskStatus]
      | succ m => simp [setTaskStatus]
    | succ n =>
      cases j with
      | zero => simp [setTaskStatus]
      | succ m =>
        have := ih n m
        simp only [setTaskStatus, List.get?_cons_succ, this, List.length_cons]
        by_cases hmn : m = n
        · subst hmn
          by_cases hlt : m < r.length
          · rw [if_pos ⟨rfl, hlt⟩, if_pos ⟨rfl, Nat.succ_lt_succ hlt⟩]
          · rw [if_neg (by simp [hlt]), if_neg (by
              intro hc
              exact hlt (Nat.lt_of_succ_lt_succ hc.2))]
        · rw [if_neg (by simp [hmn]), if_neg (by
            intro hc
            exact hmn (Nat.succ_injective hc.1))]

lemma cancelTask_length (i : Nat) (ts : List TaskStatus) :
    (cancelTask i ts).length = ts.length := by
  unfold cancelTask
  split
  · rw [setTaskStatus_length]
  · rfl

lemma cancelTask_get? (i j : Nat) (ts : List TaskStatus) :
    (cancelTask i ts).get? j =
      if ts.get? i = some TaskStatus.pending ∧ j = i then some TaskStatus.cancelled
      else ts.get? j := by
  unfold cancelTask
  by_cases h : ts.get? i = some TaskStatus.pending
  · have hlt : i < ts.length := by
      by_contra hge
      rw [List.get?_eq_none.mpr (Nat.le_of_not_lt hge)] at h
      cases h
    rw [if_pos h, setTaskStatus_get?]
    by_cases hj : j = i
    · rw [if_pos ⟨hj, hlt⟩, if_pos ⟨h, hj⟩]
    · rw [if_neg (by simp [hj]), if_neg (by simp [hj])]
  · rw [if_neg h, if_neg (fun hc => h hc.1)]

lemma keys_map_setEntry (sid : Nat) (g : Nat × Program → Program) :
    ∀ ps : List (Nat × Program),
      (ps.map (fun e => if e.1 = sid then (e.1, g e) else e)).map Prod.fst
        = ps.map Prod.fst := by
  intro ps
  induction ps with
  | nil => rfl
  | cons a t ih =>
    by_cases h : a.1 = sid <;> simp [h, ih]

lemma keys_setHandler (sid : Nat) (h : Option WavProgrammeHandler) (s : RCState) :
    (setHandler sid h s).programs.map Prod.fst = s.programs.map Prod.fst := by
  unfold setHandler
  exact keys_map_setEntry sid _ s.programs

lemma containsKey_iff (sid : Nat) (ps : List (Nat × Program)) :
    containsKey sid ps = true ↔ sid ∈ ps.map Prod.fst := by
  simp [containsKey, List.any_eq_true, List.mem_map]

lemma lookupProgram_isSome_of_containsKey {sid : Nat} {ps : List (Nat × Program)}
    (h : containsKey sid ps = true) : (lookupProgram sid ps).isSome = true := by
  simp only [containsKey, List.any_eq_true] at h
  obtain ⟨e, he, hk⟩ := h
  rcases hf : List.find? (fun e => e.1 == sid) ps with _ | e2
  · exact absurd hk (by simpa using List.find?_eq_none.mp hf e he)
  · simp [lookupProgram, hf]

lemma lookupProgram_none_key {sid : Nat} {ps : List (Nat × Program)}
    (h : lookupProgram sid ps = none) : ∀ e ∈ ps, e.1 ≠ sid := by
  intro e he hk
  rcases hf : List.find? (fun e => e.1 == sid) ps with _ | e2
  · exact absurd (by simpa using hk) (by simpa using List.find?_eq_none.mp hf e he)
  · rw [lookupProgram, hf] at h
    simp at h

lemma lookupProgram_some_mem {sid : Nat} {ps : List (Nat × Program)} {p : Program}
    (h : lookupProgram sid ps = some p) : ∃ e ∈ ps, e.1 = sid ∧ e.2 = p := by
  rcases hf : List.find? (fun e => e.1 == sid) ps with _ | e2
  · rw [lookupProgram, hf] at h
    simp at h
  · rw [lookupProgram, hf] at h
    simp only [Option.map] at h
    injection h with h
    refine ⟨e2, List.mem_of_find?_eq_some hf, ?_, h⟩
    have := List.find?_some hf
    simpa using this

lemma NoHandlers_iff (s : RCState) :
    NoHandlers s = true ↔ ∀ e ∈ s.programs, e.2.handler = none := by
  simp [NoHandlers_eq, List.all_eq_true, Option.isNone_iff_eq_none]

lemma NoHandlers_setHandler_some {sid : Nat} {s : RCState}
    (hck : containsKey sid s.programs = true) (h : WavProgrammeHandler) :
    NoHandlers (setHandler sid (some h) s) = false := by
  rcases (containsKey_iff sid s.programs).mp hck with hmem
  rcases List.mem_map.mp hmem with ⟨e, he, hk⟩
  apply Bool.eq_false_iff.mpr
  intro hall
  have hmem2 : (sid, { e.2 with handler := some h }) ∈ (setHandler sid (some h) s).programs := by
    unfold setHandler
    have hmm := List.mem_map_of_mem
      (fun e => if e.1 = sid then (e.1, { e.2 with handler := some h }) else e) he
    simpa [hk] using hmm
  have := (NoHandlers_iff _).mp hall _ hmem2
  simp at this

lemma RCInv_mk {s : RCState}
    (h1 : s.devLockHeld = s.devTuned.isSome)
    (h2 : pyTruthy s.channelName = s.devTuned.isSome)
    (h3 : ∀ i, s.resetField = some i →
      s.resetTasks.get? i = some TaskStatus.pending
      ∧ s.devTuned.isSome = true ∧ NoHandlers s = true)
    (h4 : ∀ j, s.resetTasks.get? j = some TaskStatus.pending → s.resetField = some j)
    (h5 : s.devTuned = none → s.programs = [])
    (h6 : s.devTuned.isSome = true → NoHandlers s = true → s.resetField.isSome = true)
    (h7 : (s.programs.map Prod.fst).Nodup) : RCInv s := by
  refine ⟨h1, h2, ?_, ?_, h5, h6, h7⟩
  · intro i hi
    exact h3 i (by simpa using hi)
  · intro j _ hj
    exact h4 j hj

lemma RCInv.lock {s : RCState} (h : RCInv s) : s.devLockHeld = s.devTuned.isSome := h.1

lemma RCInv.truthy {s : RCState} (h : RCInv s) : pyTruthy s.channelName = s.devTuned.isSome :=
  h.2.1

lemma RCInv.field {s : RCState} (h : RCInv s) {i : Nat} (hf : s.resetField = some i) :
    s.resetTasks.get? i = some TaskStatus.pending
    ∧ s.devTuned.isSome = true ∧ NoHandlers s = true :=
  h.2.2.1 i (by simp [hf])

lemma RCInv.pending {s : RCState} (h : RCInv s) {j : Nat}
    (hj : s.resetTasks.get? j = some TaskStatus.pending) : s.resetField = some j := by
  by_cases hlt : j < s.resetTasks.length
  · exact h.2.2.2.1 j (List.mem_range.mpr hlt) hj
  · exfalso
    rw [List.get?_eq_none.mpr (Nat.le_of_not_lt hlt)] at hj
    cases hj

lemma RCInv.empty {s : RCState} (h : RCInv s) : s.devTuned = none → s.programs = [] :=
  h.2.2.2.2.1

lemma RCInv.drained {s : RCState} (h : RCInv s) :
    s.devTuned.isSome = true → NoHandlers s = true → s.resetField.isSome = true :=
  h.2.2.2.2.2.1

lemma RCInv.nodup {s : RCState} (h : RCInv s) : (s.programs.map Prod.fst).Nodup :=
  h.2.2.2.2.2.2

lemma fill_service_id_keys (f : Nat → String) (lookupName : String)
    (ps : List (Nat × Program)) :
    (fill_service_id f lookupName ps).2.map Prod.fst = ps.map Prod.fst :=
  keys_of_resolveList f _ _ (fill_service_id_resolveList f lookupName ps)

lemma addServiceList_nodup (batch : List Nat) :
    ∀ ps : List (Nat × Program), (ps.map Prod.fst).Nodup →
      ((addServiceList batch ps).map Prod.fst).Nodup := by
  induction batch with
  | nil => intro ps h; simpa [addServiceList] using h
  | cons sid rest ih =>
    intro ps h
    have hstep : (((if containsKey sid ps then ps
        else ps ++ [(sid, { name := none, handler := none })]) : List (Nat × Program)).map
          Prod.fst).Nodup := by
      by_cases hck : containsKey sid ps = true
      · simpa [hck] using h
      · have hnm : sid ∉ ps.map Prod.fst := by
          intro hmem
          exact hck ((containsKey_iff sid ps).mpr hmem)
        have : ((ps ++ [(sid, ({ name := none, handler := none } : Program))]).map
            Prod.fst).Nodup := by
          rw [List.map_append]
          simp [List.nodup_append, h, hnm]
      
        simpa [hck] using this
    have := ih _ hstep
    simpa [addServiceList] using this

lemma fill_service_id_found_contains (f : Nat → String) (lookupName : String) :
    ∀ (ps : List (Nat × Program)) (sid : Nat),
      (fill_service_id f lookupName ps).1 = some sid →
      containsKey sid (fill_service_id f lookupName ps).2 = true := by
  intro ps
  induction ps with
  | nil => intro sid h; cases h
  | cons e rest ih =>
    obtain ⟨sid0, p⟩ := e
    intro sid h
    by_cases hm :
        (if pyTruthy p.name then p else { p with name := some (f sid0) }).name
          = some lookupName
    · simp only [fill_service_id, hm, if_true] at h ⊢
      injection h with h
      subst h
      simp [containsKey]
    · simp only [fill_service_id, hm, if_false] at h ⊢
      have := ih sid h
      simp [containsKey] at this ⊢
      exact Or.inr this

lemma wait_loop_keys_nodup (f : Nat → String) (lookupName : String) :
    ∀ (fuel : Nat) (arr : List (List Nat)) (intr : Option (Nat × InterruptKind))
      (ps : List (Nat × Program)), (ps.map Prod.fst).Nodup →
      (((wait_loop f lookupName fuel arr intr ps).2).map Prod.fst).Nodup := by
  intro fuel
  induction fuel with
  | zero => intro arr intr ps h; simpa [wait_loop] using h
  | succ n ih =>
    intro arr intr ps h
    have hadd := addServiceList_nodup (arr.headD []) ps h
    have hfill : (((fill_service_id f lookupName
        (addServiceList (arr.headD []) ps)).2).map Prod.fst).Nodup := by
      rw [fill_service_id_keys]
      exact hadd
    match intr with
    | some (0, k) => simpa [wait_loop] using h
    | none =>
      simp only [wait_loop]
      by_cases ht : sidTruthy (fill_service_id f lookupName
          (addServiceList (arr.headD []) ps)).1 = true
      · rw [if_pos ht]
        exact hfill
      · rw [if_neg ht]
        exact ih arr.tail none _ hfill
    | some (m + 1, k) =>
      simp only [wait_loop]
      by_cases ht : sidTruthy (fill_service_id f lookupName
          (addServiceList (arr.headD []) ps)).1 = true
      · rw [if_pos ht]
        exact hfill
      · rw [if_neg ht]
        exact ih arr.tail (some (m, k)) _ hfill

lemma wait_for_channel_keys_nodup (f : Nat → String) (lookupName : String)
    (ps : List (Nat × Program)) (arr : List (List Nat))
    (intr : Option (Nat × InterruptKind)) (h : (ps.map Prod.fst).Nodup) :
    (((wait_for_channel f lookupName ps arr intr).2).map Prod.fst).Nodup := by
  have hfill : (((fill_service_id f lookupName ps).2).map Prod.fst).Nodup := by
    rw [fill_service_id_keys]
    exact h
  unfold wait_for_channel
  by_cases ht : sidTruthy (fill_service_id f lookupName ps).1 = true
  · rw [if_pos ht]
    exact hfill
  · rw [if_neg ht]
    exact wait_loop_keys_nodup f lookupName _ arr intr _ hfill

lemma wait_loop_found_contains (f : Nat → String) (lookupName : String) :
    ∀ (fuel : Nat) (arr : List (List Nat)) (intr : Option (Nat × InterruptKind))
      (ps ps2 : List (Nat × Program)) (sid : Nat),
      wait_loop f lookupName fuel arr intr ps = (Except.ok (some sid), ps2) →
      containsKey sid ps2 = true := by
  intro fuel
  induction fuel with
  | zero =>
    intro arr intr ps ps2 sid h
    simp only [wait_loop] at h
    injection h with h1 h2
    injection h1 with h1
    exact Option.noConfusion h1
  | succ n ih =>
    intro arr intr ps ps2 sid h
    match intr with
    | some (0, k) =>
      simp only [wait_loop] at h
      injection h with h1 h2
      exact Except.noConfusion h1
    | none =>
      simp only [wait_loop] at h
      by_cases ht : sidTruthy (fill_service_id f lookupName
          (addServiceList (arr.headD []) ps)).1 = true
      · rw [if_pos ht] at h
        injection h with h1 h2
        injection h1 with h1
        rw [← h2]
        exact fill_service_id_found_contains f lookupName _ sid h1
      · rw [if_neg ht] at h
        exact ih arr.tail none _ _ sid h
    | some (m + 1, k) =>
      simp only [wait_loop] at h
      by_cases ht : sidTruthy (fill_service_id f lookupName
          (addServiceList (arr.headD []) ps)).1 = true
      · rw [if_pos ht] at h
        injection h with h1 h2
        injection h1 with h1
        rw [← h2]
        exact fill_service_id_found_contains f lookupName _ sid h1
      · rw [if_neg ht] at h
        exact ih arr.tail (some (m, k)) _ _ sid h

lemma wait_for_channel_found_contains (f : Nat → String) (lookupName : String)
    (ps : List (Nat × Program)) (arr : List (List Nat))
    (intr : Option (Nat × InterruptKind)) (ps2 : List (Nat × Program)) (sid : Nat)
    (h : wait_for_channel f lookupName ps arr intr = (Except.ok (some sid), ps2)) :
    containsKey sid ps2 = true := by
  unfold wait_for_channel at h
  by_cases ht : sidTruthy (fill_service_id f lookupName ps).1 = true
  · rw [if_pos ht] at h
    injection h with h1 h2
    injection h1 with h1
    rw [← h2]
    exact fill_service_id_found_contains f lookupName _ sid h1
  · rw [if_neg ht] at h
    exact wait_loop_found_contains f lookupName _ arr intr _ _ sid h

lemma RCInv_cleanup_mid (s : RCState) (ps2 : List (Nat × Program))
    (hl : s.devLockHeld = true) (hd : s.devTuned.isSome = true)
    (hc : pyTruthy s.channelName = true) (hf : s.resetField = none)
    (hp : ∀ j, ¬s.resetTasks.get? j = some TaskStatus.pending)
    (hk : (ps2.map Prod.fst).Nodup) :
    RCInv (cleanup_channel { s with programs := ps2 }) := by
  by_cases hnh : NoHandlers { s with programs := ps2 } = true
  · rw [cleanup_channel_noh hnh]
    refine RCInv_mk ?_ ?_ ?_ ?_ ?_ ?_ ?_
    · simpa using hl.trans hd.symm
    · simpa using hc.trans hd.symm
    · intro i hi
      simp only at hi
      injection hi with hi
      subst hi
      refine ⟨?_, hd, hnh⟩
      simpa using List.get?_concat_length s.resetTasks TaskStatus.pending
    · intro j hj
      simp only at hj ⊢
      by_cases hlt : j < s.resetTasks.length
      · rw [List.get?_append hlt] at hj
        exact absurd hj (hp j)
      · have hge := Nat.le_of_not_lt hlt
        rcases Nat.eq_or_lt_of_le hge with heq | hgt
        · rw [← heq]
        · exfalso
          have hnone : (s.resetTasks ++ [TaskStatus.pending]).get? j = none := by
            apply List.get?_eq_none.mpr
            simpa using hgt
          rw [hnone] at hj
          cases hj
    · intro h0
      simp only at h0
      rw [h0] at hd
      cases hd
    · intro _ _
      simp
    · simpa using hk
  · rw [cleanup_channel_hand (Bool.eq_false_iff.mpr hnh)]
    refine RCInv_mk ?_ ?_ ?_ ?_ ?_ ?_ ?_
    · simpa using hl.trans hd.symm
    · simpa using hc.trans hd.symm
    · intro i hi
      simp only at hi
      rw [hf] at hi
      cases hi
    · intro j hj
      simp only at hj
      exact absurd hj (hp j)
    · intro h0
      simp only at h0
      rw [h0] at hd
      cases hd
    · intro _ hnh2
      exact absurd hnh2 hnh
    · simpa using hk

lemma RCInv_attached (σ0 : RCState) (sid : Nat) (h0 : WavProgrammeHandler)
    (hl : σ0.devLockHeld = true) (hd : σ0.devTuned.isSome = true)
    (hc : pyTruthy σ0.channelName = true) (hf : σ0.resetField = none)
    (hp : ∀ j, ¬σ0.resetTasks.get? j = some TaskStatus.pending)
    (hk : (σ0.programs.map Prod.fst).Nodup)
    (hck : containsKey sid σ0.programs = true) :
    RCInv (setHandler sid (some h0) σ0) := by
  refine RCInv_mk ?_ ?_ ?_ ?_ ?_ ?_ ?_
  · rw [setHandler_devLockHeld, setHandler_devTuned, hl, hd]
  · rw [setHandler_channelName, setHandler_devTuned, hc, hd]
  · intro i hi
    rw [setHandler_resetField, hf] at hi
    cases hi
  · intro j hj
    rw [setHandler_resetTasks] at hj
    exact absurd hj (hp j)
  · intro h1
    rw [setHandler_devTuned] at h1
    rw [h1] at hd
    cases hd
  · intro _ hno
    rw [NoHandlers_setHandler_some hck h0] at hno
    cases hno
  · rw [keys_setHandler]
    exact hk

lemma RCInv_subscribe_for_service (f : Nat → String) (env : DeviceEnv) (nm : String)
    (s : RCState)
    (hl : s.devLockHeld = true) (hd : s.devTuned.isSome = true)
    (hc : pyTruthy s.channelName = true) (hf : s.resetField = none)
    (hp : ∀ j, ¬s.resetTasks.get? j = some TaskStatus.pending)
    (hk : (s.programs.map Prod.fst).Nodup) :
    RCInv (subscribe_for_service f env nm s).2 := by
  rcases hw : wait_for_channel f nm s.programs env.arrivals env.interrupt with ⟨r, ps2⟩
  have hk2 : (ps2.map Prod.fst).Nodup := by
    have hkk := wait_for_channel_keys_nodup f nm s.programs env.arrivals env.interrupt hk
    rw [hw] at hkk
    exact hkk
  unfold subscribe_for_service
  rw [hw]
  rcases r with k | osid
  · exact RCInv_cleanup_mid s ps2 hl hd hc hf hp hk2
  · rcases osid with _ | sid
    · exact RCInv_cleanup_mid s ps2 hl hd hc hf hp hk2
    · have hck : containsKey sid ps2 = true :=
        wait_for_channel_found_contains f nm s.programs env.arrivals env.interrupt ps2 sid hw
      dsimp only
      rcases hlp : lookupProgram sid ps2 with _ | p
      · exfalso
        have hs := lookupProgram_isSome_of_containsKey hck
        rw [hlp] at hs
        cases hs
      · rcases hh : p.handler with _ | h0
        · by_cases hsub : env.subscribeOk = true
          · simp only [hlp, hh, hsub, if_true]
            refine RCInv_attached _ sid _ hl hd hc hf hp ?_ ?_
            · rw [keys_setHandler]
              exact hk2
            · rw [containsKey_iff, keys_setHandler]
              exact (containsKey_iff _ _).mp hck
          · simp only [hlp, hh, hsub, if_false]
            have hfalse : NoHandlers (setHandler sid (some newHandler)
                { s with programs := ps2 }) = false :=
              NoHandlers_setHandler_some hck newHandler
            rw [cleanup_channel_hand hfalse]
            exact RCInv_attached { s with programs := ps2 } sid newHandler hl hd hc hf hp hk2 hck
        · simp only [hlp, hh]
          exact RCInv_attached { s with programs := ps2 } sid _ hl hd hc hf hp hk2 hck


lemma tune_channel_cases (env : DeviceEnv) (ch : String) (s : RCState)
    (hInv : RCInv s) (hch : ch ≠ "") :
    ((tune_channel env ch s).1 = false → RCInv (tune_channel env ch s).2)
    ∧ ((tune_channel env ch s).1 = true →
        (tune_channel env ch s).2.devLockHeld = true
        ∧ (tune_channel env ch s).2.devTuned.isSome = true
        ∧ pyTruthy (tune_channel env ch s).2.channelName = true
        ∧ (tune_channel env ch s).2.resetField = none
        ∧ (∀ j, ¬(tune_channel env ch s).2.resetTasks.get? j = some TaskStatus.pending)
        ∧ ((tune_channel env ch s).2.programs.map Prod.fst).Nodup) := by
  have htrch : pyTruthy (some ch) = true := by
    simp [pyTruthy, hch]
  rcases hF : s.resetField with _ | i
  · have hpre : tune_channel_pre ch s = s := by
      simp [tune_channel_pre, hF]
    have hnp0 : ∀ j, ¬s.resetTasks.get? j = some TaskStatus.pending := by
      intro j hj
      have hpf := hInv.pending hj
      rw [hF] at hpf
      cases hpf
    unfold tune_channel
    rw [hpre]
    unfold tune_channel_post
    by_cases htr : pyTruthy s.channelName = true
    · have hdS : s.devTuned.isSome = true := hInv.truthy.symm.trans htr
      have hlock : s.devLockHeld = true := hInv.lock.trans hdS
      rw [if_pos htr]
      by_cases hne : s.channelName = some ch
      · rw [if_neg (by simp [hne])]
        exact ⟨fun hcon => Bool.noConfusion hcon,
          fun _ => ⟨hlock, hdS, htr, hF, hnp0, hInv.nodup⟩⟩
      · rw [if_pos (by simpa using hne)]
        exact ⟨fun _ => hInv, fun hcon => Bool.noConfusion hcon⟩
    · have hdN : s.devTuned = none := by
        have h2 := hInv.truthy
        rw [eq_false_of_ne_true htr] at h2
        rcases hdd : s.devTuned with _ | v
        · rfl
        · rw [hdd] at h2
          cases h2
      have hlock : s.devLockHeld = false := by
        rw [hInv.lock, hdN]
        rfl
      rw [if_neg htr, if_neg (by rw [hlock]; exact Bool.false_ne_true)]
      by_cases hok : env.setChannelOk = true
      · rw [if_pos hok]
        refine ⟨fun hcon => Bool.noConfusion hcon, fun _ => ⟨rfl, rfl, htrch, hF, hnp0, hInv.nodup⟩⟩
      · rw [if_neg hok]
        refine ⟨fun _ => ?_, fun hcon => Bool.noConfusion hcon⟩
        have hself : ({ s with devLockHeld := false } : RCState) = s := by
          rw [← hlock]
        show RCInv { s with devLockHeld := false }
        rw [hself]
        exact hInv
  · obtain ⟨hpend, hdS, hNoH⟩ := hInv.field hF
    have htr : pyTruthy s.channelName = true := hInv.truthy.trans hdS
    have hlock : s.devLockHeld = true := hInv.lock.trans hdS
    have hnp : ∀ j, ¬(cancelTask i s.resetTasks).get? j = some TaskStatus.pending := by
      intro j hj
      rw [cancelTask_get?] at hj
      by_cases hcase : s.resetTasks.get? i = some TaskStatus.pending ∧ j = i
      · rw [if_pos hcase] at hj
        cases hj
      · rw [if_neg hcase] at hj
        have hpf := hInv.pending hj
        rw [hF] at hpf
        injection hpf with hpf
        exact hcase ⟨hpend, hpf.symm⟩
    by_cases hne : s.channelName = some ch
    · have hpre : tune_channel_pre ch s = { s with resetTasks := cancelTask i s.resetTasks, resetField := none } := by
        simp [tune_channel_pre, hF, hne]
      unfold tune_channel
      rw [hpre]
      unfold tune_channel_post
      dsimp only
      rw [if_pos htr]
      rw [if_neg (by simp [hne])]
      exact ⟨fun hcon => Bool.noConfusion hcon,
        fun _ => ⟨hlock, hdS, htr, rfl, hnp, hInv.nodup⟩⟩
    · have hpre : tune_channel_pre ch s = { reset_channel s with resetTasks := cancelTask i s.resetTasks, resetField := none } := by
        simp [tune_channel_pre, hF, hne]
      unfold tune_channel
      rw [hpre]
      unfold tune_channel_post
      dsimp only [reset_channel]
      rw [if_neg (show ¬pyTruthy none = true by simp [pyTruthy])]
      rw [if_neg (show ¬false = true from Bool.false_ne_true)]
      by_cases hok : env.setChannelOk = true
      · rw [if_pos hok]
        refine ⟨fun hcon => Bool.noConfusion hcon, fun _ => ⟨rfl, rfl, htrch, rfl, hnp, by simp⟩⟩
      · rw [if_neg hok]
        refine ⟨fun _ => ?_, fun hcon => Bool.noConfusion hcon⟩
        refine RCInv_mk ?_ ?_ ?_ ?_ ?_ ?_ ?_
        · rfl
        · rfl
        · intro i2 hi2
          exact Option.noConfusion hi2
        · intro j hj
          exact absurd hj (hnp j)
        · intro _
          rfl
        · intro hcon
          exact Bool.noConfusion hcon
        · simp

lemma RCInv_subscribe (f : Nat → String) (env : DeviceEnv) (ch programName : String)
    (s : RCState) (hInv : RCInv s) (hch : ch ≠ "") :
    RCInv (subscribe_program f env ch programName s).2 := by
  obtain ⟨hfalse, htrue⟩ := tune_channel_cases env ch s hInv hch
  unfold subscribe_program
  dsimp only
  by_cases ht : (tune_channel env ch s).1 = true
  · rw [if_pos ht]
    obtain ⟨hl, hd, hc, hf, hp, hk⟩ := htrue ht
    exact RCInv_subscribe_for_service f env programName _ hl hd hc hf hp hk
  · rw [if_neg ht]
    exact hfalse (Bool.eq_false_iff.mpr ht)

lemma RCInv_unsubscribe_sid (sid : Nat) (s : RCState) (hInv : RCInv s) :
    RCInv (unsubscribe_sid sid s) := by
  rcases hlp : lookupProgram sid s.programs with _ | p
  · have hstep : unsubscribe_sid sid s = s := by
      unfold unsubscribe_sid
      rw [hlp]
    rw [hstep]
    exact hInv
  · rcases hh : p.handler with _ | h0
    · have hstep : unsubscribe_sid sid s = s := by
        unfold unsubscribe_sid
        rw [hlp]
        simp [hh]
      rw [hstep]
      exact hInv
    · have hhand : NoHandlers s = false := by
        obtain ⟨e, he, _, he2⟩ := lookupProgram_some_mem hlp
        apply Bool.eq_false_iff.mpr
        intro hall
        have hnone := (NoHandlers_iff s).mp hall e he
        rw [he2, hh] at hnone
        cases hnone
      have hf : s.resetField = none := by
        rcases hFF : s.resetField with _ | i
        · rfl
        · obtain ⟨_, _, hNoH⟩ := hInv.field hFF
          rw [hhand] at hNoH
          cases hNoH
      have hnp : ∀ j, ¬s.resetTasks.get? j = some TaskStatus.pending := by
        intro j hj
        have hpf := hInv.pending hj
        rw [hf] at hpf
        cases hpf
      have hdS : s.devTuned.isSome = true := by
        rcases hdd : s.devTuned with _ | v
        · have hempty := hInv.empty hdd
          rw [hempty] at hlp
          exact Option.noConfusion hlp
        · rfl
      have hl : s.devLockHeld = true := hInv.lock.trans hdS
      have hc : pyTruthy s.channelName = true := hInv.truthy.trans hdS
      have hck : containsKey sid s.programs = true := by
        obtain ⟨e, he, hk0, _⟩ := lookupProgram_some_mem hlp
        exact (containsKey_iff sid s.programs).mpr (List.mem_map.mpr ⟨e, he, hk0⟩)
      by_cases hz : h0.subscribers - 1 = 0
      · have hstep : unsubscribe_sid sid s = cleanup_channel (setHandler sid none s) := by
          unfold unsubscribe_sid
          rw [hlp]
          simp [hh, hz]
        rw [hstep]
        exact RCInv_cleanup_mid s (setHandler sid none s).programs hl hdS hc hf hnp
          (by rw [keys_setHandler]; exact hInv.nodup)
      · have hstep : unsubscribe_sid sid s =
            setHandler sid (some { subscribers := h0.subscribers - 1 }) s := by
          unfold unsubscribe_sid
          rw [hlp]
          simp [hh, hz]
        rw [hstep]
        exact RCInv_attached s sid _ hl hdS hc hf hnp hInv.nodup hck

lemma RCInv_unsubscribe_program (programName : String) (s : RCState) (hInv : RCInv s) :
    RCInv (unsubscribe_program programName s) := by
  unfold unsubscribe_program
  rcases hfind : s.programs.find? (fun e => e.2.name == some programName) with _ | e
  · rw [hfind]
    exact hInv
  · rw [hfind]
    exact RCInv_unsubscribe_sid e.1 s hInv

lemma RCInv_fire (i : Nat) (s : RCState) (hInv : RCInv s) : RCInv (fire_reset i s) := by
  unfold fire_reset
  by_cases hp : s.resetTasks.get? i = some TaskStatus.pending
  · rw [if_pos hp]
    have hFi := hInv.pending hp
    refine RCInv_mk ?_ ?_ ?_ ?_ ?_ ?_ ?_
    · rfl
    · rfl
    · intro i2 hi2
      exact Option.noConfusion hi2
    · intro j hj
      rw [setTaskStatus_get?] at hj
      by_cases hcase : j = i ∧ i < s.resetTasks.length
      · rw [if_pos hcase] at hj
        cases hj
      · rw [if_neg hcase] at hj
        have hpf := hInv.pending hj
        rw [hFi] at hpf
        injection hpf with hpf
        have hlt : i < s.resetTasks.length := by
          by_contra hge
          rw [List.get?_eq_none.mpr (Nat.le_of_not_lt hge)] at hp
          cases hp
        exact absurd ⟨hpf.symm, hlt⟩ hcase
    · intro _
      rfl
    · intro hcon
      exact Bool.noConfusion hcon
    · simp [reset_channel]
  · rw [if_neg hp]
    exact hInv

lemma RCInv_service_detected (sid : Nat) (s : RCState) (hInv : RCInv s)
    (hdS : s.devTuned.isSome = true) : RCInv (on_service_detected sid s) := by
  unfold on_service_detected
  by_cases hck : containsKey sid s.programs = true
  · rw [if_pos hck]
    exact hInv
  · rw [if_neg hck]
    have hnm : sid ∉ s.programs.map Prod.fst := fun hm => hck ((containsKey_iff _ _).mpr hm)
    refine RCInv_mk ?_ ?_ ?_ ?_ ?_ ?_ ?_
    · exact hInv.lock
    · exact hInv.truthy
    · intro i hi
      have hfacts := hInv.field hi
      refine ⟨hfacts.1, hfacts.2.1, ?_⟩
      have hall := hfacts.2.2
      rw [NoHandlers_eq] at hall
      rw [NoHandlers_eq]
      dsimp only
      rw [List.all_append]
      simp [hall]
    · intro j hj
      exact hInv.pending hj
    · intro h0
      have h0' : s.devTuned = none := h0
      rw [h0'] at hdS
      cases hdS
    · intro _ hnall
      have hs : NoHandlers s = true := by
        rw [NoHandlers_eq] at hnall
        dsimp only at hnall
        rw [List.all_append, Bool.and_eq_true] at hnall
        rw [NoHandlers_eq]
        exact hnall.1
      exact hInv.drained hdS hs
    · dsimp only
      rw [List.map_append]
      simp [List.nodup_append, hInv.nodup, hnm]

lemma RCInv_fold_unsub (sids : List Nat) :
    ∀ s : RCState, RCInv s →
      RCInv (sids.foldl (fun st sid => unsubscribe_sid sid st) s) := by
  induction sids with
  | nil => intro s h; exact h
  | cons a rest ih =>
    intro s h
    exact ih _ (RCInv_unsubscribe_sid a s h)

lemma RCInv_stop (s : RCState) (hInv : RCInv s) : RCInv (rcStop s) := by
  have h1 := RCInv_fold_unsub (s.programs.map Prod.fst) s hInv
  set s1 := (s.programs.map Prod.fst).foldl (fun st sid => unsubscribe_sid sid st) s with hs1
  rcases hF : s1.resetField with _ | i
  · have hstep : rcStop s = s1 := by
      unfold rcStop
      rw [← hs1]
      dsimp only
      rw [hF]
    rw [hstep]
    exact h1
  · have hstep : rcStop s = { reset_channel s1 with resetTasks := cancelTask i s1.resetTasks, resetField := none } := by
      unfold rcStop
      rw [← hs1]
      dsimp only
      rw [hF]
    rw [hstep]
    have hpend := (h1.field hF).1
    refine RCInv_mk ?_ ?_ ?_ ?_ ?_ ?_ ?_
    · rfl
    · rfl
    · intro i2 hi2
      exact Option.noConfusion hi2
    · intro j hj
      dsimp only at hj
      rw [cancelTask_get?] at hj
      by_cases hcase : s1.resetTasks.get? i = some TaskStatus.pending ∧ j = i
      · rw [if_pos hcase] at hj
        cases hj
      · rw [if_neg hcase] at hj
        have hpf := h1.pending hj
        rw [hF] at hpf
        injection hpf with hpf
        exact absurd ⟨hpend, hpf.symm⟩ hcase
    · intro _
      rfl
    · intro hcon
      exact Bool.noConfusion hcon
    · simp [reset_channel]

lemma RCInv_ensemble (l : String) (s : RCState) (hInv : RCInv s) :
    RCInv (on_set_ensemble_label l s) :=
  RCInv_mk hInv.lock hInv.truthy (fun _ hi => hInv.field hi) (fun _ hj => hInv.pending hj)
    hInv.empty hInv.drained hInv.nodup

lemma RCInv_step (f : Nat → String) (s : RCState) (op : Op) (hInv : RCInv s)
    (hv : opValid op = true) : RCInv (step f s op) := by
  cases op with
  | subscribe ch nm env =>
    have hch : ch ≠ "" := by
      simp [opValid] at hv
      exact hv
    exact RCInv_subscribe f env ch nm s hInv hch
  | unsubscribe nm => exact RCInv_unsubscribe_program nm s hInv
  | stop => exact RCInv_stop s hInv
  | fire i => exact RCInv_fire i s hInv
  | serviceDetected sid =>
    show RCInv (if s.devTuned.isSome then on_service_detected sid s else s)
    by_cases hd : s.devTuned.isSome = true
    · rw [if_pos hd]
      exact RCInv_service_detected sid s hInv hd
    · rw [if_neg hd]
      exact hInv
  | ensembleLabel l =>
    show RCInv (if s.devTuned.isSome then on_set_ensemble_label l s else s)
    by_cases hd : s.devTuned.isSome = true
    · rw [if_pos hd]
      exact RCInv_ensemble l s hInv
    · rw [if_neg hd]
      exact hInv

lemma RCInv_runFrom (f : Nat → String) (ops : List Op) :
    ∀ s : RCState, RCInv s → ValidOps ops = true → RCInv (runFrom f s ops) := by
  induction ops with
  | nil => intro s h _; exact h
  | cons op rest ih =>
    intro s h hv
    simp only [ValidOps, List.all_cons, Bool.and_eq_true] at hv
    exact ih _ (RCInv_step f s op h hv.1) hv.2

lemma RCInv_initState : RCInv initState := by decide

/-- C5: in every controller state reachable by a trace of valid operations,
at most one pending delayed-reset task exists (any two pending task indices
coincide), a pending task is exactly the one referenced by
`_channel_reset_task`, and it exists only while the device is tuned and no
programme handler is live; quantifying over all traces shows every
operation preserves the invariant. -/
theorem c5_pending_reset_invariant (f : Nat → String) (ops : List Op)
    (hv : ValidOps ops = true) :
    (∀ j k, (runTrace f ops).resetTasks.get? j = some TaskStatus.pending →
        (runTrace f ops).resetTasks.get? k = some TaskStatus.pending → j = k)
    ∧ (∀ j, (runTrace f ops).resetTasks.get? j = some TaskStatus.pending →
        (runTrace f ops).resetField = some j)
    ∧ (∀ i, (runTrace f ops).resetField = some i →
        (runTrace f ops).resetTasks.get? i = some TaskStatus.pending
        ∧ (runTrace f ops).devTuned.isSome = true
        ∧ NoHandlers (runTrace f ops) = true) := by
  have hInv := RCInv_runFrom f ops initState RCInv_initState hv
  refine ⟨?_, ?_, ?_⟩
  · intro j k hj hk
    have h1 := hInv.pending hj
    have h2 := hInv.pending hk
    rw [h1] at h2
    exact Option.some.inj h2
  · intro j hj
    exact hInv.pending hj
  · intro i hi
    exact hInv.field hi

/-- Witness for C5 on the trace that subscribes to `"News"` and unsubscribes
again, leaving one pending delayed reset. -/
theorem c5_pending_reset_invariant_witness :
    ValidOps [Op.subscribe "7A" "News" envOkC, Op.unsubscribe "News"] = true
    ∧ (runTrace svcNews [Op.subscribe "7A" "News" envOkC, Op.unsubscribe "News"]).resetField
        = some 0
    ∧ (∀ i, (runTrace svcNews
          [Op.subscribe "7A" "News" envOkC, Op.unsubscribe "News"]).resetField = some i →
        (runTrace svcNews
            [Op.subscribe "7A" "News" envOkC, Op.unsubscribe "News"]).resetTasks.get? i =
          some TaskStatus.pending
        ∧ (runTrace svcNews
            [Op.subscribe "7A" "News" envOkC, Op.unsubscribe "News"]).devTuned.isSome = true
        ∧ NoHandlers (runTrace svcNews
            [Op.subscribe "7A" "News" envOkC, Op.unsubscribe "News"]) = true) :=
  ⟨by decide, by decide,
   (c5_pending_reset_invariant svcNews
     [Op.subscribe "7A" "News" envOkC, Op.unsubscribe "News"] (by decide)).2.2⟩

/-! ## Supporting lemmas for the cancellation claims -/

lemma tune_channel_post_resetTasks (env : DeviceEnv) (ch : String) (s1 : RCState) :
    (tune_channel_post env ch s1).2.resetTasks = s1.resetTasks := by
  unfold tune_channel_post
  by_cases h1 : pyTruthy s1.channelName = true
  · rw [if_pos h1]
    by_cases h2 : s1.channelName ≠ some ch
    · rw [if_pos h2]
    · rw [if_neg h2]
  · rw [if_neg h1]
    by_cases h2 : s1.devLockHeld = true
    · rw [if_pos h2]
    · rw [if_neg h2]
      by_cases h3 : env.setChannelOk = true
      · rw [if_pos h3]
      · rw [if_neg h3]

lemma tune_channel_pre_resetTasks_of_field {s : RCState} {i : Nat} (ch : String)
    (hF : s.resetField = some i) :
    (tune_channel_pre ch s).resetTasks = cancelTask i s.resetTasks := by
  unfold tune_channel_pre
  simp only [hF]
  split <;> rfl

lemma tune_channel_pre_resetTasks_of_none {s : RCState} (ch : String)
    (hF : s.resetField = none) : tune_channel_pre ch s = s := by
  unfold tune_channel_pre
  rw [hF]

lemma cleanup_channel_resetTasks_get? (s : RCState) (i : Nat)
    (hi : i < s.resetTasks.length) :
    (cleanup_channel s).resetTasks.get? i = s.resetTasks.get? i := by
  unfold cleanup_channel
  split
  · dsimp only
    exact List.get?_append hi
  · rfl

lemma subscribe_for_service_resetTasks_get? (f : Nat → String) (env : DeviceEnv)
    (nm : String) (s : RCState) (i : Nat) (hi : i < s.resetTasks.length) :
    (subscribe_for_service f env nm s).2.resetTasks.get? i = s.resetTasks.get? i := by
  rcases hw : wait_for_channel f nm s.programs env.arrivals env.interrupt with ⟨r, ps2⟩
  unfold subscribe_for_service
  rw [hw]
  rcases r with k | osid
  · exact cleanup_channel_resetTasks_get? _ i hi
  · rcases osid with _ | sid
    · exact cleanup_channel_resetTasks_get? _ i hi
    · dsimp only
      rcases hlp : lookupProgram sid ps2 with _ | p
      · rfl
      · rcases hh : p.handler with _ | h0
        · by_cases hsub : env.subscribeOk = true
          · simp only [hlp, hh, hsub, if_true]
            rfl
          · simp only [hlp, hh, hsub, if_false]
            exact cleanup_channel_resetTasks_get? _ i hi
        · simp only [hlp, hh]
          rfl

lemma subscribe_program_cancels (f : Nat → String) (env : DeviceEnv)
    (ch nm : String) (s : RCState) (i : Nat) (hF : s.resetField = some i)
    (hpend : s.resetTasks.get? i = some TaskStatus.pending) :
    (subscribe_program f env ch nm s).2.resetTasks.get? i = some TaskStatus.cancelled := by
  have hlt : i < s.resetTasks.length := by
    by_contra hge
    rw [List.get?_eq_none.mpr (Nat.le_of_not_lt hge)] at hpend
    cases hpend
  have htt : (tune_channel env ch s).2.resetTasks = cancelTask i s.resetTasks := by
    unfold tune_channel
    rw [tune_channel_post_resetTasks]
    exact tune_channel_pre_resetTasks_of_field ch hF
  have hcan : (tune_channel env ch s).2.resetTasks.get? i = some TaskStatus.cancelled := by
    rw [htt, cancelTask_get?, if_pos ⟨hpend, rfl⟩]
  unfold subscribe_program
  dsimp only
  by_cases ht : (tune_channel env ch s).1 = true
  · rw [if_pos ht]
    rw [subscribe_for_service_resetTasks_get?]
    · exact hcan
    · rw [htt, cancelTask_length]
      exact hlt
  · rw [if_neg ht]
    exact hcan

lemma unsubscribe_sid_noop {s : RCState} (sid : Nat) (h : NoHandlers s = true) :
    unsubscribe_sid sid s = s := by
  rcases hlp : lookupProgram sid s.programs with _ | p
  · unfold unsubscribe_sid
    rw [hlp]
  · obtain ⟨e, he, _, he2⟩ := lookupProgram_some_mem hlp
    have hpn : p.handler = none := by
      rw [← he2]
      exact (NoHandlers_iff s).mp h e he
    unfold unsubscribe_sid
    rw [hlp]
    simp [hpn]

lemma fold_unsub_noop (sids : List Nat) :
    ∀ s : RCState, NoHandlers s = true →
      sids.foldl (fun st sid => unsubscribe_sid sid st) s = s := by
  induction sids with
  | nil => intro s _; rfl
  | cons a rest ih =>
    intro s h
    show rest.foldl (fun st sid => unsubscribe_sid sid st) (unsubscribe_sid a s) = s
    rw [unsubscribe_sid_noop a h]
    exact ih s h

lemma rcStop_cancels (s : RCState) (i : Nat) (hInv : RCInv s)
    (hF : s.resetField = some i) :
    (rcStop s).resetTasks.get? i = some TaskStatus.cancelled := by
  obtain ⟨hpend, _, hNoH⟩ := hInv.field hF
  have hfold := fold_unsub_noop (s.programs.map Prod.fst) s hNoH
  have hstep : rcStop s = { reset_channel s with resetTasks := cancelTask i s.resetTasks, resetField := none } := by
    unfold rcStop
    rw [hfold]
    dsimp only
    rw [hF]
  rw [hstep]
  dsimp only
  rw [cancelTask_get?, if_pos ⟨hpend, rfl⟩]

lemma fire_reset_noop_of_cancelled {s : RCState} {i : Nat}
    (h : s.resetTasks.get? i = some TaskStatus.cancelled) : fire_reset i s = s := by
  have hne : ¬s.resetTasks.get? i = some TaskStatus.pending := by
    rw [h]
    intro hc
    injection hc with hc2
    exact TaskStatus.noConfusion hc2
  unfold fire_reset
  rw [if_neg hne]

lemma cancelled_stays_cancelTask (j i : Nat) (ts : List TaskStatus)
    (h : ts.get? i = some TaskStatus.cancelled) :
    (cancelTask j ts).get? i = some TaskStatus.cancelled := by
  rw [cancelTask_get?]
  by_cases hc : ts.get? j = some TaskStatus.pending ∧ i = j
  · rw [if_pos hc]
  · rw [if_neg hc]
    exact h

lemma cancelled_stays_unsub (sid : Nat) (s : RCState) (i : Nat)
    (h : s.resetTasks.get? i = some TaskStatus.cancelled) :
    (unsubscribe_sid sid s).resetTasks.get? i = some TaskStatus.cancelled := by
  have hlt : i < s.resetTasks.length := by
    by_contra hge
    rw [List.get?_eq_none.mpr (Nat.le_of_not_lt hge)] at h
    cases h
  rcases hlp : lookupProgram sid s.programs with _ | p
  · rw [show unsubscribe_sid sid s = s from by unfold unsubscribe_sid; rw [hlp]]
    exact h
  · rcases hh : p.handler with _ | h0
    · rw [show unsubscribe_sid sid s = s from by
        unfold unsubscribe_sid; rw [hlp]; simp [hh]]
      exact h
    · by_cases hz : h0.subscribers - 1 = 0
      · rw [show unsubscribe_sid sid s = cleanup_channel (setHandler sid none s) from by
          unfold unsubscribe_sid; rw [hlp]; simp [hh, hz]]
        rw [cleanup_channel_resetTasks_get? _ i (by rw [setHandler_resetTasks]; exact hlt)]
        rw [setHandler_resetTasks]
        exact h
      · rw [show unsubscribe_sid sid s =
            setHandler sid (some { subscribers := h0.subscribers - 1 }) s from by
          unfold unsubscribe_sid; rw [hlp]; simp [hh, hz]]
        rw [setHandler_resetTasks]
        exact h

lemma cancelled_stays_fold (sids : List Nat) :
    ∀ (s : RCState) (i : Nat), s.resetTasks.get? i = some TaskStatus.cancelled →
      ((sids.foldl (fun st sid => unsubscribe_sid sid st) s).resetTasks.get? i
        = some TaskStatus.cancelled) := by
  induction sids with
  | nil => intro s i h; exact h
  | cons a rest ih =>
    intro s i h
    exact ih _ i (cancelled_stays_unsub a s i h)

lemma cancelled_stays_stop (s : RCState) (i : Nat)
    (h : s.resetTasks.get? i = some TaskStatus.cancelled) :
    (rcStop s).resetTasks.get? i = some TaskStatus.cancelled := by
  set s1 := (s.programs.map Prod.fst).foldl (fun st sid => unsubscribe_sid sid st) s with hs1
  have h1 : s1.resetTasks.get? i = some TaskStatus.cancelled := by
    rw [hs1]
    exact cancelled_stays_fold _ s i h
  rcases hF : s1.resetField with _ | j
  · have hstep : rcStop s = s1 := by
      unfold rcStop
      rw [← hs1]
      dsimp only
      rw [hF]
    rw [hstep]
    exact h1
  · have hstep : rcStop s = { reset_channel s1 with resetTasks := cancelTask j s1.resetTasks, resetField := none } := by
      unfold rcStop
      rw [← hs1]
      dsimp only
      rw [hF]
    rw [hstep]
    exact cancelled_stays_cancelTask j i s1.resetTasks h1

lemma cancelled_stays_tune (env : DeviceEnv) (ch : String) (s : RCState) (i : Nat)
    (h : s.resetTasks.get? i = some TaskStatus.cancelled) :
    (tune_channel env ch s).2.resetTasks.get? i = some TaskStatus.cancelled := by
  unfold tune_channel
  rw [tune_channel_post_resetTasks]
  rcases hF : s.resetField with _ | j
  · rw [tune_channel_pre_resetTasks_of_none ch hF]
    exact h
  · rw [tune_channel_pre_resetTasks_of_field ch hF]
    exact cancelled_stays_cancelTask j i s.resetTasks h

lemma tune_channel_resetTasks_length (env : DeviceEnv) (ch : String) (s : RCState) :
    (tune_channel env ch s).2.resetTasks.length = s.resetTasks.length := by
  unfold tune_channel
  rw [tune_channel_post_resetTasks]
  rcases hF : s.resetField with _ | j
  · rw [tune_channel_pre_resetTasks_of_none ch hF]
  · rw [tune_channel_pre_resetTasks_of_field ch hF, cancelTask_length]

lemma cancelled_stays_subscribe (f : Nat → String) (env : DeviceEnv) (ch nm : String)
    (s : RCState) (i : Nat)
    (h : s.resetTasks.get? i = some TaskStatus.cancelled) :
    (subscribe_program f env ch nm s).2.resetTasks.get? i = some TaskStatus.cancelled := by
  have hlt : i < s.resetTasks.length := by
    by_contra hge
    rw [List.get?_eq_none.mpr (Nat.le_of_not_lt hge)] at h
    cases h
  unfold subscribe_program
  dsimp only
  by_cases ht : (tune_channel env ch s).1 = true
  · rw [if_pos ht]
    rw [subscribe_for_service_resetTasks_get? f env nm _ i
      (by rw [tune_channel_resetTasks_length]; exact hlt)]
    exact cancelled_stays_tune env ch s i h
  · rw [if_neg ht]
    exact cancelled_stays_tune env ch s i h

lemma cancelled_stays_fire (j : Nat) (s : RCState) (i : Nat)
    (h : s.resetTasks.get? i = some TaskStatus.cancelled) :
    (fire_reset j s).resetTasks.get? i = some TaskStatus.cancelled := by
  unfold fire_reset
  by_cases hp : s.resetTasks.get? j = some TaskStatus.pending
  · rw [if_pos hp]
    dsimp only
    rw [setTaskStatus_get?]
    by_cases hc : i = j ∧ j < s.resetTasks.length
    · exfalso
      rw [hc.1] at h
      rw [h] at hp
      injection hp with hp2
      exact TaskStatus.noConfusion hp2
    · rw [if_neg hc]
      exact h
  · rw [if_neg hp]
    exact h

lemma cancelled_stays_step (f : Nat → String) (s : RCState) (op : Op) (i : Nat)
    (h : s.resetTasks.get? i = some TaskStatus.cancelled) :
    (step f s op).resetTasks.get? i = some TaskStatus.cancelled := by
  cases op with
  | subscribe ch nm env => exact cancelled_stays_subscribe f env ch nm s i h
  | unsubscribe nm =>
    show (unsubscribe_program nm s).resetTasks.get? i = some TaskStatus.cancelled
    unfold unsubscribe_program
    rcases hfind : s.programs.find? (fun e => e.2.name == some nm) with _ | e
    · rw [hfind]
      exact h
    · rw [hfind]
      exact cancelled_stays_unsub e.1 s i h
  | stop => exact cancelled_stays_stop s i h
  | fire j => exact cancelled_stays_fire j s i h
  | serviceDetected sid =>
    show (if s.devTuned.isSome then on_service_detected sid s else s).resetTasks.get? i
      = some TaskStatus.cancelled
    by_cases hd : s.devTuned.isSome = true
    · rw [if_pos hd]
      unfold on_service_detected
      split
      · exact h
      · exact h
    · rw [if_neg hd]
      exact h
  | ensembleLabel l =>
    show (if s.devTuned.isSome then on_set_ensemble_label l s else s).resetTasks.get? i
      = some TaskStatus.cancelled
    by_cases hd : s.devTuned.isSome = true
    · rw [if_pos hd]
      exact h
    · rw [if_neg hd]
      exact h

lemma cancelled_stays_runFrom (f : Nat → String) (ops : List Op) :
    ∀ (s : RCState) (i : Nat), s.resetTasks.get? i = some TaskStatus.cancelled →
      (runFrom f s ops).resetTasks.get? i = some TaskStatus.cancelled := by
  induction ops with
  | nil => intro s i h; exact h
  | cons op rest ih =>
    intro s i h
    exact ih _ i (cancelled_stays_step f s op i h)

/-- C6: a pending delayed reset (the task referenced by `_channel_reset_task`
in an invariant-satisfying state, in particular any subsequent successful
subscription's target) is cancelled by every `subscribe_program` call — in
particular by a successful subscription to the same channel — and by
`stop()`; and once a reset task is cancelled it stays cancelled through every
later operation and its firing is a no-op (it never detunes the device or
clears channel/program state). -/
theorem c6_reset_cancellation (f : Nat → String) (s : RCState) (i : Nat)
    (hInv : RCInv s) (hF : s.resetField = some i) :
    (∀ env ch nm, (subscribe_program f env ch nm s).2.resetTasks.get? i
        = some TaskStatus.cancelled)
    ∧ (rcStop s).resetTasks.get? i = some TaskStatus.cancelled
    ∧ (∀ s2 : RCState, s2.resetTasks.get? i = some TaskStatus.cancelled →
        ∀ ops, (runFrom f s2 ops).resetTasks.get? i = some TaskStatus.cancelled)
    ∧ (∀ s2 : RCState, s2.resetTasks.get? i = some TaskStatus.cancelled →
        fire_reset i s2 = s2) := by
  have hpend := (hInv.field hF).1
  refine ⟨?_, rcStop_cancels s i hInv hF, ?_, ?_⟩
  · intro env ch nm
    exact subscribe_program_cancels f env ch nm s i hF hpend
  · intro s2 h2 ops
    exact cancelled_stays_runFrom f ops s2 i h2
  · intro s2 h2
    exact fire_reset_noop_of_cancelled h2

/-- Witness for C6 at the concrete drained state (one pending reset, task 0)
reached by subscribing to and unsubscribing from `"News"`. -/
theorem c6_reset_cancellation_witness :
    RCInv (runTrace svcNews [Op.subscribe "7A" "News" envOkC, Op.unsubscribe "News"])
    ∧ (runTrace svcNews
        [Op.subscribe "7A" "News" envOkC, Op.unsubscribe "News"]).resetField = some 0
    ∧ (rcStop (runTrace svcNews
        [Op.subscribe "7A" "News" envOkC, Op.unsubscribe "News"])).resetTasks.get? 0
      = some TaskStatus.cancelled :=
  ⟨by decide, by decide,
   (c6_reset_cancellation svcNews
     (runTrace svcNews [Op.subscribe "7A" "News" envOkC, Op.unsubscribe "News"]) 0
     (by decide) (by decide)).2.1⟩

/-! ## C4 -/

/-- C4 (counterexample): `stop()` decrements each program's subscriber count
only once, so after two subscriptions to `"News"` and a `stop()` the handler
survives with count 1, the channel stays tuned and the device lock stays
held — not the state of a freshly constructed controller. -/
theorem c4_stop_counterexample :
    (runTrace svcNews [Op.subscribe "7A" "News" envOkC, Op.subscribe "7A" "News" envOkC,
        Op.stop]).programs =
      [(1, { name := some "News", handler := some { subscribers := 1 } })]
    ∧ (runTrace svcNews [Op.subscribe "7A" "News" envOkC, Op.subscribe "7A" "News" envOkC,
        Op.stop]).devLockHeld = true
    ∧ pyTruthy (runTrace svcNews [Op.subscribe "7A" "News" envOkC,
        Op.subscribe "7A" "News" envOkC, Op.stop]).channelName = true := by
  decide


/-- After `stop()`, `_subscribe_for_service_in_current_channel` depends only on
the fields that `stop()` resets, so its behaviour agrees between any two states
that agree on programs, channel name, tuner and lock. -/
lemma subscribe_for_service_congr (f : Nat → String) (env : DeviceEnv) (nm : String)
    (sa sb : RCState) (hp : sa.programs = sb.programs)
    (hcn : sa.channelName = sb.channelName) (hdt : sa.devTuned = sb.devTuned)
    (hlk : sa.devLockHeld = sb.devLockHeld) :
    (subscribe_for_service f env nm sa).1 = (subscribe_for_service f env nm sb).1
    ∧ (subscribe_for_service f env nm sa).2.programs
        = (subscribe_for_service f env nm sb).2.programs
    ∧ (subscribe_for_service f env nm sa).2.channelName
        = (subscribe_for_service f env nm sb).2.channelName
    ∧ (subscribe_for_service f env nm sa).2.devTuned
        = (subscribe_for_service f env nm sb).2.devTuned
    ∧ (subscribe_for_service f env nm sa).2.devLockHeld
        = (subscribe_for_service f env nm sb).2.devLockHeld := by
  rcases hw : wait_for_channel f nm sa.programs env.arrivals env.interrupt with ⟨r, ps2⟩
  have hwb : wait_for_channel f nm sb.programs env.arrivals env.interrupt = (r, ps2) := by
    rw [← hp]
    exact hw
  unfold subscribe_for_service
  rw [hw, hwb]
  rcases r with k | osid
  · refine ⟨rfl, ?_, ?_, ?_, ?_⟩
    · show (cleanup_channel { sa with programs := ps2 }).programs
        = (cleanup_channel { sb with programs := ps2 }).programs
      rw [cleanup_channel_programs, cleanup_channel_programs]
    · show (cleanup_channel { sa with programs := ps2 }).channelName
        = (cleanup_channel { sb with programs := ps2 }).channelName
      rw [cleanup_channel_channelName, cleanup_channel_channelName]
      exact hcn
    · show (cleanup_channel { sa with programs := ps2 }).devTuned
        = (cleanup_channel { sb with programs := ps2 }).devTuned
      rw [cleanup_channel_devTuned, cleanup_channel_devTuned]
      exact hdt
    · show (cleanup_channel { sa with programs := ps2 }).devLockHeld
        = (cleanup_channel { sb with programs := ps2 }).devLockHeld
      rw [cleanup_channel_devLockHeld, cleanup_channel_devLockHeld]
      exact hlk
  · rcases osid with _ | sid
    · refine ⟨rfl, ?_, ?_, ?_, ?_⟩
      · show (cleanup_channel { sa with programs := ps2 }).programs
          = (cleanup_channel { sb with programs := ps2 }).programs
        rw [cleanup_channel_programs, cleanup_channel_programs]
      · show (cleanup_channel { sa with programs := ps2 }).channelName
          = (cleanup_channel { sb with programs := ps2 }).channelName
        rw [cleanup_channel_channelName, cleanup_channel_channelName]
        exact hcn
      · show (cleanup_channel { sa with programs := ps2 }).devTuned
          = (cleanup_channel { sb with programs := ps2 }).devTuned
        rw [cleanup_channel_devTuned, cleanup_channel_devTuned]
        exact hdt
      · show (cleanup_channel { sa with programs := ps2 }).devLockHeld
          = (cleanup_channel { sb with programs := ps2 }).devLockHeld
        rw [cleanup_channel_devLockHeld, cleanup_channel_devLockHeld]
        exact hlk
    · dsimp only
      rcases hlp : lookupProgram sid ps2 with _ | p
      · exact ⟨rfl, rfl, hcn, hdt, hlk⟩
      · dsimp only
        rcases hh : p.handler with _ | h0
        · dsimp only
          by_cases hsub : env.subscribeOk = true
          · rw [if_pos hsub, if_pos hsub]
            exact ⟨rfl, rfl, hcn, hdt, hlk⟩
          · rw [if_neg hsub, if_neg hsub]
            by_cases hno : NoHandlers (setHandler sid (some newHandler)
                { sa with programs := ps2 }) = true
            · have hnob : NoHandlers (setHandler sid (some newHandler)
                  { sb with programs := ps2 }) = true := hno
              rw [cleanup_channel_noh hno, cleanup_channel_noh hnob]
              exact ⟨rfl, rfl, hcn, hdt, hlk⟩
            · have hnob : NoHandlers (setHandler sid (some newHandler)
                  { sb with programs := ps2 }) = false := eq_false_of_ne_true hno
              rw [cleanup_channel_hand (eq_false_of_ne_true hno), cleanup_channel_hand hnob]
              exact ⟨rfl, rfl, hcn, hdt, hlk⟩
        · dsimp only
          exact ⟨rfl, rfl, hcn, hdt, hlk⟩


lemma lookup_unique : ∀ {ps : List (Nat × Program)}, (ps.map Prod.fst).Nodup →
    ∀ {e : Nat × Program}, e ∈ ps → lookupProgram e.1 ps = some e.2 := by
  intro ps
  induction ps with
  | nil =>
    intro _ e he
    cases he
  | cons b t ih =>
    intro hnd e he
    rw [List.map_cons, List.nodup_cons] at hnd
    rcases List.mem_cons.mp he with rfl | ht
    · unfold lookupProgram
      rw [List.find?_cons_of_pos _ (by simp)]
      rfl
    · have hne : b.1 ≠ e.1 := by
        intro hq
        exact hnd.1 (hq ▸ List.mem_map_of_mem Prod.fst ht)
      unfold lookupProgram
      rw [List.find?_cons_of_neg _ (by simp [hne])]
      exact ih hnd.2 ht

lemma setHandler_mem {sid : Nat} {h : Option WavProgrammeHandler} {s : RCState}
    {e' : Nat × Program} (he' : e' ∈ (setHandler sid h s).programs) :
    (e'.2.handler = h) ∨ (e' ∈ s.programs ∧ e'.1 ≠ sid) := by
  unfold setHandler at he'
  rcases List.mem_map.mp he' with ⟨e, he, hg⟩
  by_cases hk : e.1 = sid
  · left
    rw [if_pos hk] at hg
    rw [← hg]
  · right
    rw [if_neg hk] at hg
    rw [← hg]
    exact ⟨he, hk⟩

lemma unsubscribe_sid_fields (sid : Nat) (s : RCState) :
    (unsubscribe_sid sid s).channelName = s.channelName
    ∧ (unsubscribe_sid sid s).devTuned = s.devTuned
    ∧ (unsubscribe_sid sid s).devLockHeld = s.devLockHeld := by
  rcases hlp : lookupProgram sid s.programs with _ | p
  · have hstep : unsubscribe_sid sid s = s := by
      unfold unsubscribe_sid
      rw [hlp]
    rw [hstep]
    exact ⟨rfl, rfl, rfl⟩
  · rcases hh : p.handler with _ | h0
    · have hstep : unsubscribe_sid sid s = s := by
        unfold unsubscribe_sid
        rw [hlp]
        simp [hh]
      rw [hstep]
      exact ⟨rfl, rfl, rfl⟩
    · by_cases hz : h0.subscribers - 1 = 0
      · have hstep : unsubscribe_sid sid s = cleanup_channel (setHandler sid none s) := by
          unfold unsubscribe_sid
          rw [hlp]
          simp [hh, hz]
        rw [hstep]
        refine ⟨?_, ?_, ?_⟩
        · rw [cleanup_channel_channelName, setHandler_channelName]
        · rw [cleanup_channel_devTuned, setHandler_devTuned]
        · rw [cleanup_channel_devLockHeld, setHandler_devLockHeld]
      · have hstep : unsubscribe_sid sid s =
            setHandler sid (some { subscribers := h0.subscribers - 1 }) s := by
          unfold unsubscribe_sid
          rw [hlp]
          simp [hh, hz]
        rw [hstep]
        exact ⟨rfl, rfl, rfl⟩

lemma fold_unsub_fields (sids : List Nat) :
    ∀ s : RCState,
      (sids.foldl (fun st sid => unsubscribe_sid sid st) s).channelName = s.channelName
      ∧ (sids.foldl (fun st sid => unsubscribe_sid sid st) s).devTuned = s.devTuned
      ∧ (sids.foldl (fun st sid => unsubscribe_sid sid st) s).devLockHeld = s.devLockHeld := by
  induction sids with
  | nil =>
    intro s
    exact ⟨rfl, rfl, rfl⟩
  | cons a rest ih =>
    intro s
    rw [List.foldl_cons]
    obtain ⟨h1, h2, h3⟩ := ih (unsubscribe_sid a s)
    obtain ⟨g1, g2, g3⟩ := unsubscribe_sid_fields a s
    exact ⟨h1.trans g1, h2.trans g2, h3.trans g3⟩


lemma fold_unsub_drain (sids : List Nat) :
    ∀ s : RCState,
      (∀ e ∈ s.programs, ∀ h0 ∈ e.2.handler.toList,
        h0.subscribers = (1 : Int) ∧ e.1 ∈ sids) →
      (s.programs.map Prod.fst).Nodup →
      (∀ j, s.resetTasks.get? j = some TaskStatus.pending → s.resetField = some j) →
      (∀ i, s.resetField = some i → NoHandlers s = true) →
      (NoHandlers s = true → s.resetField.isSome = true) →
      NoHandlers (sids.foldl (fun st sid => unsubscribe_sid sid st) s) = true
      ∧ (∀ j, (sids.foldl (fun st sid => unsubscribe_sid sid st) s).resetTasks.get? j
            = some TaskStatus.pending
          → (sids.foldl (fun st sid => unsubscribe_sid sid st) s).resetField = some j)
      ∧ (sids.foldl (fun st sid => unsubscribe_sid sid st) s).resetField.isSome = true := by
  induction sids with
  | nil =>
    intro s h1 _ hQ _ hS
    have hnh : NoHandlers s = true := by
      rw [NoHandlers_iff]
      intro e he
      rcases hhe : e.2.handler with _ | h0
      · rfl
      · exact absurd (h1 e he h0 (by rw [hhe]; simp)).2 (List.not_mem_nil e.1)
    exact ⟨hnh, hQ, hS hnh⟩
  | cons a rest ih =>
    intro s h1 hnd hQ hR hS
    rw [List.foldl_cons]
    rcases hlp : lookupProgram a s.programs with _ | p
    · have hstep : unsubscribe_sid a s = s := by
        unfold unsubscribe_sid
        rw [hlp]
      rw [hstep]
      refine ih s ?_ hnd hQ hR hS
      intro e he h0 hh0
      obtain ⟨hsub, hmem⟩ := h1 e he h0 hh0
      exact ⟨hsub, (List.mem_cons.mp hmem).resolve_left (lookupProgram_none_key hlp e he)⟩
    · rcases hh : p.handler with _ | h0
      · have hstep : unsubscribe_sid a s = s := by
          unfold unsubscribe_sid
          rw [hlp]
          simp [hh]
        rw [hstep]
        refine ih s ?_ hnd hQ hR hS
        intro e he hx hhx
        obtain ⟨hsub, hmem⟩ := h1 e he hx hhx
        refine ⟨hsub, (List.mem_cons.mp hmem).resolve_left ?_⟩
        intro hka
        have hlu := lookup_unique hnd he
        rw [hka, hlp] at hlu
        injection hlu with hep
        rw [← hep, hh] at hhx
        cases hhx
      · obtain ⟨e0, he0, hk0, he02⟩ := lookupProgram_some_mem hlp
        have hsub1 : h0.subscribers = (1 : Int) := by
          have := h1 e0 he0 h0 (by rw [he02, hh]; simp)
          exact this.1
        have hz : h0.subscribers - 1 = 0 := by
          rw [hsub1]
          decide
        have hstep : unsubscribe_sid a s = cleanup_channel (setHandler a none s) := by
          unfold unsubscribe_sid
          rw [hlp]
          simp [hh, hz]
        have hNHs : NoHandlers s = false := by
          apply Bool.eq_false_iff.mpr
          intro hall
          have := (NoHandlers_iff s).mp hall e0 he0
          rw [he02, hh] at this
          cases this
        have hfs : s.resetField = none := by
          rcases hFF : s.resetField with _ | i
          · rfl
          · rw [hR i hFF] at hNHs
            cases hNHs
        have hnp : ∀ j, ¬s.resetTasks.get? j = some TaskStatus.pending := by
          intro j hj
          have := hQ j hj
          rw [hfs] at this
          cases this
        have h1m : ∀ e ∈ (setHandler a none s).programs, ∀ hx ∈ e.2.handler.toList,
            hx.subscribers = (1 : Int) ∧ e.1 ∈ rest := by
          intro e he hx hhx
          rcases setHandler_mem he with hnone | ⟨hmem, hne⟩
          · rw [hnone] at hhx
            cases hhx
          · obtain ⟨hsub, hmemL⟩ := h1 e hmem hx hhx
            exact ⟨hsub, (List.mem_cons.mp hmemL).resolve_left hne⟩
        have hndm : ((setHandler a none s).programs.map Prod.fst).Nodup := by
          rw [keys_setHandler]
          exact hnd
        rw [hstep]
        by_cases hno : NoHandlers (setHandler a none s) = true
        · have hclean := cleanup_channel_noh hno
          rw [hclean]
          refine ih _ ?_ ?_ ?_ ?_ ?_
          · intro e he hx hhx
            exfalso
            have := (NoHandlers_iff _).mp hno e he
            rw [this] at hhx
            cases hhx
          · exact hndm
          · intro j hj
            dsimp only at hj ⊢
            rw [setHandler_resetTasks] at hj
            by_cases hjl : j < s.resetTasks.length
            · rw [List.get?_append hjl] at hj
              exact absurd hj (hnp j)
            · have hge : s.resetTasks.length ≤ j := Nat.le_of_not_lt hjl
              rw [List.get?_append_right hge] at hj
              have hj0 : j - s.resetTasks.length = 0 := by
                rcases hd : j - s.resetTasks.length with _ | d
                · rfl
                · rw [hd] at hj
                  simp [List.get?] at hj
              have hje : j = s.resetTasks.length := by omega
              rw [hje, setHandler_resetTasks]
          · intro i _
            rw [NoHandlers_eq]
            dsimp only
            have := (NoHandlers_eq (setHandler a none s)).symm.trans hno
            exact this
          · intro _
            rfl
        · have hnob : NoHandlers (setHandler a none s) = false := eq_false_of_ne_true hno
          rw [cleanup_channel_hand hnob]
          refine ih _ h1m hndm ?_ ?_ ?_
          · intro j hj
            rw [setHandler_resetTasks] at hj
            exact absurd hj (hnp j)
          · intro i hi
            rw [setHandler_resetField, hfs] at hi
            cases hi
          · intro hcontra
            rw [hnob] at hcontra
            cases hcontra


lemma rcStop_fresh (s : RCState) (hInv : RCInv s)
    (hOne : ∀ e ∈ s.programs, ∀ h0 ∈ e.2.handler.toList, h0.subscribers = (1 : Int)) :
    (rcStop s).programs = []
    ∧ pyTruthy (rcStop s).channelName = false
    ∧ (rcStop s).devTuned = none
    ∧ (rcStop s).devLockHeld = false
    ∧ (rcStop s).resetField = none
    ∧ ∀ j, ¬(rcStop s).resetTasks.get? j = some TaskStatus.pending := by
  rcases hdt : s.devTuned with _ | c
  · have hprog : s.programs = [] := hInv.empty hdt
    have hfield : s.resetField = none := by
      rcases hFF : s.resetField with _ | i
      · rfl
      · obtain ⟨_, hts, _⟩ := hInv.field hFF
        rw [hdt] at hts
        cases hts
    have hfold0 : (s.programs.map Prod.fst).foldl (fun st sid => unsubscribe_sid sid st) s = s := by
      rw [hprog]
      rfl
    have hstop : rcStop s = s := by
      unfold rcStop
      dsimp only
      rw [hfold0, hfield]
    rw [hstop]
    refine ⟨hprog, ?_, hdt, ?_, hfield, ?_⟩
    · rw [hInv.truthy, hdt]
      rfl
    · rw [hInv.lock, hdt]
      rfl
    · intro j hj
      have hpf := hInv.pending hj
      rw [hfield] at hpf
      cases hpf
  · have hds : s.devTuned.isSome = true := by
      rw [hdt]
      rfl
    obtain ⟨hNH1, hQ1, hF1⟩ := fold_unsub_drain (s.programs.map Prod.fst) s
      (fun e he h0 hh0 => ⟨hOne e he h0 hh0, List.mem_map_of_mem Prod.fst he⟩)
      hInv.nodup
      (fun j hj => hInv.pending hj)
      (fun i hi => (hInv.field hi).2.2)
      (fun hnh => hInv.drained hds hnh)
    obtain ⟨i, hfi⟩ := Option.isSome_iff_exists.mp hF1
    have hstop : rcStop s = { reset_channel ((s.programs.map Prod.fst).foldl (fun st sid => unsubscribe_sid sid st) s) with resetTasks := cancelTask i ((s.programs.map Prod.fst).foldl (fun st sid => unsubscribe_sid sid st) s).resetTasks, resetField := none } := by
      unfold rcStop
      dsimp only
      rw [hfi]
    rw [hstop]
    refine ⟨rfl, rfl, rfl, rfl, rfl, ?_⟩
    intro j hj
    dsimp only at hj
    rw [cancelTask_get?] at hj
    by_cases hcond : ((s.programs.map Prod.fst).foldl (fun st sid => unsubscribe_sid sid st) s).resetTasks.get? i = some TaskStatus.pending ∧ j = i
    · rw [if_pos hcond] at hj
      cases hj
    · rw [if_neg hcond] at hj
      have hji : j = i := by
        have hq := hQ1 j hj
        rw [hfi] at hq
        injection hq with hq
        exact hq.symm
      exact hcond ⟨hji ▸ hj, hji⟩


lemma subscribe_from_fresh (σ : RCState) (f : Nat → String) (env : DeviceEnv)
    (ch nm : String)
    (hprog : σ.programs = []) (hcn : pyTruthy σ.channelName = false)
    (hdt : σ.devTuned = none) (hlk : σ.devLockHeld = false)
    (hfield : σ.resetField = none) :
    (subscribe_program f env ch nm σ).1 = (subscribe_program f env ch nm initState).1
    ∧ (subscribe_program f env ch nm σ).2.programs
        = (subscribe_program f env ch nm initState).2.programs
    ∧ (subscribe_program f env ch nm σ).2.devTuned
        = (subscribe_program f env ch nm initState).2.devTuned
    ∧ (subscribe_program f env ch nm σ).2.devLockHeld
        = (subscribe_program f env ch nm initState).2.devLockHeld
    ∧ pyTruthy (subscribe_program f env ch nm σ).2.channelName
        = pyTruthy (subscribe_program f env ch nm initState).2.channelName := by
  have hpre : tune_channel_pre ch σ = σ := by
    unfold tune_channel_pre
    rw [hfield]
  have hprei : tune_channel_pre ch initState = initState := rfl
  by_cases hsc : env.setChannelOk = true
  · have htune : tune_channel env ch σ = (true, { σ with devLockHeld := true, devTuned := some ch, channelName := some ch }) := by
      unfold tune_channel
      rw [hpre]
      unfold tune_channel_post
      rw [hcn, hlk]
      simp [hsc]
    have htunei : tune_channel env ch initState = (true, { initState with devLockHeld := true, devTuned := some ch, channelName := some ch }) := by
      unfold tune_channel
      rw [hprei]
      unfold tune_channel_post
      simp [hsc, pyTruthy, initState]
    have hsuba : subscribe_program f env ch nm σ = subscribe_for_service f env nm { σ with devLockHeld := true, devTuned := some ch, channelName := some ch } := by
      unfold subscribe_program
      dsimp only
      rw [htune]
      rfl
    have hsubi : subscribe_program f env ch nm initState = subscribe_for_service f env nm { initState with devLockHeld := true, devTuned := some ch, channelName := some ch } := by
      unfold subscribe_program
      dsimp only
      rw [htunei]
      rfl
    have hcongr := subscribe_for_service_congr f env nm
      { σ with devLockHeld := true, devTuned := some ch, channelName := some ch }
      { initState with devLockHeld := true, devTuned := some ch, channelName := some ch }
      (by exact hprog) rfl rfl rfl
    rw [hsuba, hsubi]
    exact ⟨hcongr.1, hcongr.2.1, hcongr.2.2.2.1, hcongr.2.2.2.2,
      congrArg pyTruthy hcongr.2.2.1⟩
  · have hscF : env.setChannelOk = false := eq_false_of_ne_true hsc
    have htune : tune_channel env ch σ = (false, { σ with devLockHeld := false }) := by
      unfold tune_channel
      rw [hpre]
      unfold tune_channel_post
      rw [hcn, hlk]
      simp [hscF]
    have htunei : tune_channel env ch initState = (false, { initState with devLockHeld := false }) := by
      unfold tune_channel
      rw [hprei]
      unfold tune_channel_post
      simp [hscF, pyTruthy, initState]
    have hsuba : subscribe_program f env ch nm σ = (Except.ok none, { σ with devLockHeld := false }) := by
      unfold subscribe_program
      dsimp only
      rw [htune]
      rfl
    have hsubi : subscribe_program f env ch nm initState = (Except.ok none, { initState with devLockHeld := false }) := by
      unfold subscribe_program
      dsimp only
      rw [htunei]
      rfl
    rw [hsuba, hsubi]
    exact ⟨rfl, hprog, hdt, rfl, hcn.trans rfl⟩


/-- C4 (amended): `stop()` unsubscribes every active program *once* (one
`_unsubscribe` per table entry, decrementing its subscriber count by one)
rather than force-disposing it, so the full-reset claim holds under the
precondition that every live handler has subscriber count exactly 1.  Then,
after `stop()` returns, no channel is tuned, the program table is empty, no
delayed reset is pending, and the device lock is free; and a subsequent
`subscribe_program` behaves identically to one on a freshly constructed
controller (same result and same resulting program table, tuner state,
device lock, and channel-name truthiness). -/
theorem c4_stop_reset_amended (s : RCState) (hInv : RCInv s)
    (hOne : ∀ e ∈ s.programs, ∀ h0 ∈ e.2.handler.toList, h0.subscribers = (1 : Int)) :
    ((rcStop s).programs = []
      ∧ pyTruthy (rcStop s).channelName = false
      ∧ (rcStop s).devTuned = none
      ∧ (rcStop s).devLockHeld = false
      ∧ (rcStop s).resetField = none
      ∧ ∀ j, ¬(rcStop s).resetTasks.get? j = some TaskStatus.pending)
    ∧ ∀ (f : Nat → String) (env : DeviceEnv) (ch nm : String),
        (subscribe_program f env ch nm (rcStop s)).1
            = (subscribe_program f env ch nm initState).1
        ∧ (subscribe_program f env ch nm (rcStop s)).2.programs
            = (subscribe_program f env ch nm initState).2.programs
        ∧ (subscribe_program f env ch nm (rcStop s)).2.devTuned
            = (subscribe_program f env ch nm initState).2.devTuned
        ∧ (subscribe_program f env ch nm (rcStop s)).2.devLockHeld
            = (subscribe_program f env ch nm initState).2.devLockHeld
        ∧ pyTruthy (subscribe_program f env ch nm (rcStop s)).2.channelName
            = pyTruthy (subscribe_program f env ch nm initState).2.channelName := by
  obtain ⟨h1, h2, h3, h4, h5, h6⟩ := rcStop_fresh s hInv hOne
  exact ⟨⟨h1, h2, h3, h4, h5, h6⟩,
    fun f env ch nm => subscribe_from_fresh (rcStop s) f env ch nm h1 h2 h3 h4 h5⟩

/-- C4 (amended) at a concrete input: one subscription on a fresh controller
(count 1), then `stop()`; the reset facts and the fresh-subscribe agreement
are evaluated at channel `"8B"`. -/
theorem c4_stop_reset_amended_witness :
    (RCInv (runTrace svcNews [Op.subscribe "7A" "News" envOkC])
      ∧ ∀ e ∈ (runTrace svcNews [Op.subscribe "7A" "News" envOkC]).programs,
          ∀ h0 ∈ e.2.handler.toList, h0.subscribers = (1 : Int))
    ∧ (rcStop (runTrace svcNews [Op.subscribe "7A" "News" envOkC])).programs = []
    ∧ (subscribe_program svcNews envOkC "8B" "News"
        (rcStop (runTrace svcNews [Op.subscribe "7A" "News" envOkC]))).1
      = (subscribe_program svcNews envOkC "8B" "News" initState).1 := by
  refine ⟨⟨by decide, by decide⟩, ?_, ?_⟩
  · exact (c4_stop_reset_amended _ (by decide) (by decide)).1.1
  · exact ((c4_stop_reset_amended _ (by decide) (by decide)).2 svcNews envOkC "8B" "News").1
